import Mathlib

/-!
Formal model of `custom_components/climate_wrapper/climate.py`
(class `ClimateWrapperEntity`).

Temperatures and timestamps are modelled as rationals.  Home Assistant
service calls are modelled through a command-outcome environment, and a
command error is represented by its classification (power-off /
temporary), mirroring `_is_power_off_error` and
`_is_temporary_command_error`, which inspect the error text.  The
per-entity-id dictionaries of the source are modelled as functions on
the two device roles (heating / cooling), which are distinct entities.
A retry timer is modelled by an armed flag per (device, kind);
the scheduled delay value and the timer body are not observed by the
theorems below, which cover single event-handler invocations.
-/

namespace ClimateWrapper

/-- The Home Assistant HVAC modes (`HVACMode` enum values). -/
inductive HVACMode
  | off
  | heat
  | cool
  | heatCool
  | auto
  | dry
  | fanOnly
  deriving DecidableEq, Repr

/-- The Home Assistant HVAC actions (`HVACAction` enum values). -/
inductive HVACAction
  | off
  | preheating
  | heating
  | cooling
  | drying
  | fan
  | idle
  | defrosting
  deriving DecidableEq, Repr

/-- The internal running mode (`MODE_IDLE` / `MODE_HEATING` / `MODE_COOLING`). -/
inductive RunMode
  | idle
  | heating
  | cooling
  deriving DecidableEq, Repr

/-- The two device roles: `self._heating_entity` and `self._cooling_entity`. -/
inductive Role
  | heating
  | cooling
  deriving DecidableEq, Repr

/-- The raw `state.state` string of an entity, as far as the code observes it:
either a string that parses as an `HVACMode` value, one of the two
unavailability sentinels (`STATE_UNKNOWN`, `STATE_UNAVAILABLE`), or any
other unparseable string. -/
inductive RawState
  | ofMode (m : HVACMode)
  | unknownState
  | unavailableState
  | otherState
  deriving DecidableEq, Repr

/-- `state.state in SENSOR_UNAVAILABLE` (the `None` element of that tuple is
covered by the surrounding `Option`). -/
def RawState.isUnavailable : RawState → Bool
  | .unknownState => true
  | .unavailableState => true
  | _ => false

/-- `_hvac_mode_from_state`: parse `state.state` as an `HVACMode`, `None` on
`ValueError`. -/
def RawState.parseMode : RawState → Option HVACMode
  | .ofMode m => some m
  | _ => none

/-- The fields of a Home Assistant `State` object that the code reads for a
wrapped climate device. -/
structure DeviceState where
  raw : RawState
  /-- `state.attributes.get("temperature")` parsed as a float. -/
  temperature : Option ℚ
  /-- `state.attributes.get("current_temperature")` parsed as a float. -/
  current_temperature : Option ℚ
  /-- `supported_features & ClimateEntityFeature.TURN_ON` is nonzero. -/
  supportsTurnOn : Bool
  /-- `supported_features & ClimateEntityFeature.TURN_OFF` is nonzero. -/
  supportsTurnOff : Bool
  deriving DecidableEq, Repr

/-- Outcome of one service call: success, or a `HomeAssistantError` given by
its classification under `_is_power_off_error` / `_is_temporary_command_error`. -/
inductive CmdOutcome
  | ok
  | err (powerOff : Bool) (temporary : Bool)
  deriving DecidableEq, Repr

/-- The external world during one event-handler invocation: the entity states
returned by `hass.states.get`, the current wall-clock time `dt_util.utcnow()`,
and the outcome each service call would have. -/
structure Env where
  heating : Option DeviceState
  cooling : Option DeviceState
  /-- The parsed reading of the configured temperature sensor; `none` collapses
  the missing / unavailable / unparseable cases, which all leave the
  measurement untouched. -/
  tempSensorValue : Option ℚ
  /-- Same for the humidity sensor. -/
  humSensorValue : Option ℚ
  now : ℚ
  setHvacResult : Role → HVACMode → CmdOutcome
  setTempResult : Role → ℚ → CmdOutcome
  turnOnResult : Role → CmdOutcome
  turnOffResult : Role → CmdOutcome

/-- The instance configuration. -/
structure Config where
  hasHeating : Bool
  hasCooling : Bool
  hasTempSensor : Bool
  hasHumSensor : Bool
  /-- `self._command_cooldown` in seconds. -/
  cooldown : ℚ

def Env.dev (e : Env) : Role → Option DeviceState
  | .heating => e.heating
  | .cooling => e.cooling

def Config.hasRole (c : Config) : Role → Bool
  | .heating => c.hasHeating
  | .cooling => c.hasCooling

/-- The mutable state of `ClimateWrapperEntity`.  `_attr_target_temperature`
is initialised to a float and never set to `None`, so it is modelled as a
plain rational. -/
structure Ctrl where
  currentTemperature : Option ℚ
  currentHumidity : Option ℚ
  heatTarget : ℚ
  coolTarget : ℚ
  targetTemperature : ℚ
  targetLow : ℚ
  targetHigh : ℚ
  hvacMode : HVACMode
  hvacAction : HVACAction
  minTemp : ℚ
  maxTemp : ℚ
  lastActiveMode : HVACMode
  runningMode : RunMode
  pendingTargets : Role → Option ℚ
  deviceTemperatures : Role → Option ℚ
  lastHvacCommand : Role → Option (HVACMode × ℚ)
  lastTempCommand : Role → Option (ℚ × ℚ)
  pendingModes : Role → Option HVACMode
  hvacRetryArmed : Role → Bool
  tempRetryArmed : Role → Bool

/-- A dispatched service call on a wrapped device. -/
inductive DevCmd
  | setHvac (r : Role) (m : HVACMode)
  | setTemp (r : Role) (v : ℚ)
  | turnOn (r : Role)
  | turnOff (r : Role)
  deriving DecidableEq, Repr

/-- Point update of a role-indexed map. -/
def setRole {α : Type} (f : Role → α) (r : Role) (v : α) : Role → α :=
  fun x => if x = r then v else f x

def DEFAULT_MIN_TEMP : ℚ := 16
def DEFAULT_MAX_TEMP : ℚ := 30

/-- `math.isclose(a, b, abs_tol=tol)` with the default `rel_tol=1e-9`. -/
def isclose (a b tol : ℚ) : Bool :=
  |a - b| ≤ max ((1 / 1000000000) * max |a| |b|) tol

/-- `_clamp_temperature`. -/
def clampTemperature (s : Ctrl) (value : ℚ) : ℚ :=
  max s.minTemp (min s.maxTemp value)

/-- The clamped-and-conflict-resolved pair of targets computed by the first
half of `_apply_target_limits` (lines 285-296). -/
def clampedPair (s : Ctrl) : ℚ × ℚ :=
  let heat0 := clampTemperature s s.heatTarget
  let cool0 := clampTemperature s s.coolTarget
  if heat0 > cool0 then
    if s.hvacMode = .cool then (cool0, cool0)
    else if s.hvacMode = .heat then (heat0, heat0)
    else if s.lastActiveMode = .cool then (cool0, cool0)
    else (heat0, heat0)
  else (heat0, cool0)

/-- `_apply_target_limits`. -/
def applyTargetLimits (s : Ctrl) : Ctrl :=
  let hc := clampedPair s
  let s1 := { s with heatTarget := hc.1, coolTarget := hc.2,
                     targetLow := hc.1, targetHigh := hc.2 }
  if s.hvacMode = .heat then { s1 with targetTemperature := hc.1 }
  else if s.hvacMode = .cool then { s1 with targetTemperature := hc.2 }
  else { s1 with targetTemperature := clampTemperature s s.targetTemperature }

/-- `_update_temperature_limits`: the bounds are always reset to the fixed
16–30 range, then the target limits are re-applied. -/
def updateTemperatureLimits (s : Ctrl) : Ctrl :=
  applyTargetLimits { s with minTemp := DEFAULT_MIN_TEMP, maxTemp := DEFAULT_MAX_TEMP }

/-- `_cancel_hvac_retry`. -/
def cancelHvacRetry (r : Role) (s : Ctrl) : Ctrl :=
  { s with hvacRetryArmed := setRole s.hvacRetryArmed r false }

/-- `_schedule_hvac_retry`: cancels any prior timer, records the pending mode
and arms a fresh timer. -/
def scheduleHvacRetry (r : Role) (m : HVACMode) (s : Ctrl) : Ctrl :=
  let s := cancelHvacRetry r s
  { s with pendingModes := setRole s.pendingModes r (some m),
           hvacRetryArmed := setRole s.hvacRetryArmed r true }

/-- `_cancel_temperature_retry`. -/
def cancelTemperatureRetry (r : Role) (s : Ctrl) : Ctrl :=
  { s with tempRetryArmed := setRole s.tempRetryArmed r false }

/-- `_schedule_temperature_retry`: cancels any prior timer and arms a fresh
one (the pending value is recorded by the callers). -/
def scheduleTemperatureRetry (r : Role) (s : Ctrl) : Ctrl :=
  let s := cancelTemperatureRetry r s
  { s with tempRetryArmed := setRole s.tempRetryArmed r true }

/-- `_try_turn_on`: returns whether the call succeeded, and the service calls
actually dispatched.  All `HomeAssistantError`s are swallowed. -/
def tryTurnOn (env : Env) (r : Role) : Bool × List DevCmd :=
  match env.dev r with
  | none => (false, [])
  | some st =>
    if st.raw.isUnavailable then (false, [])
    else if !st.supportsTurnOn then (false, [])
    else
      match env.turnOnResult r with
      | .ok => (true, [.turnOn r])
      | .err _ _ => (false, [.turnOn r])

/-- `_try_turn_off`: same shape as `_try_turn_on` (the error classification
only affects logging). -/
def tryTurnOff (env : Env) (r : Role) : Bool × List DevCmd :=
  match env.dev r with
  | none => (false, [])
  | some st =>
    if st.raw.isUnavailable then (false, [])
    else if !st.supportsTurnOff then (false, [])
    else
      match env.turnOffResult r with
      | .ok => (true, [.turnOff r])
      | .err _ _ => (false, [.turnOff r])

/-- The cooldown guard of `_ensure_hvac_mode` (lines 876-885): a command for
the same mode was issued within the cooldown window. -/
def hvacCooldownSkip (cfg : Config) (env : Env) (r : Role) (m : HVACMode) (s : Ctrl) : Bool :=
  match s.lastHvacCommand r with
  | some (lm, lt) => decide (lm = m) && decide (env.now - lt < cfg.cooldown)
  | none => false

/-- Result of `_ensure_hvac_mode`: the mutated controller state, the returned
boolean, whether an error propagated uncaught, and the dispatched commands. -/
structure HvacRes where
  state : Ctrl
  ret : Bool
  raised : Bool
  log : List DevCmd

/-- `_ensure_hvac_mode`. -/
def ensureHvacMode (cfg : Config) (env : Env) (r : Role) (m : HVACMode) (s : Ctrl) : HvacRes :=
  match env.dev r with
  | none =>
      let s := { s with pendingModes := setRole s.pendingModes r (some m) }
      ⟨scheduleHvacRetry r m s, false, false, []⟩
  | some st =>
    if st.raw.isUnavailable then
      let s := { s with pendingModes := setRole s.pendingModes r (some m) }
      ⟨scheduleHvacRetry r m s, false, false, []⟩
    else if st.raw.parseMode = some m then
      let s := { s with pendingModes := setRole s.pendingModes r none }
      let s := cancelHvacRetry r s
      ⟨{ s with lastHvacCommand := setRole s.lastHvacCommand r none }, true, false, []⟩
    else if hvacCooldownSkip cfg env r m s then
      ⟨s, false, false, []⟩
    else
      match env.setHvacResult r m with
      | .ok =>
          let s := { s with lastHvacCommand := setRole s.lastHvacCommand r (some (m, env.now)) }
          let s := { s with pendingModes := setRole s.pendingModes r none }
          ⟨cancelHvacRetry r s, true, false, [.setHvac r m]⟩
      | .err p t =>
          if m = .off ∧ p then
            let s := { s with pendingModes := setRole s.pendingModes r none }
            let s := cancelHvacRetry r s
            ⟨{ s with lastHvacCommand := setRole s.lastHvacCommand r none }, true, false,
              [.setHvac r m]⟩
          else if p ∧ m ≠ .off then
            let ton := tryTurnOn env r
            if ton.1 then
              let s := { s with pendingModes := setRole s.pendingModes r (some m) }
              let s := scheduleHvacRetry r m s
              ⟨{ s with lastHvacCommand := setRole s.lastHvacCommand r (some (m, env.now)) },
                false, false, .setHvac r m :: ton.2⟩
            else
              let s := { s with pendingModes := setRole s.pendingModes r none }
              ⟨cancelHvacRetry r s, false, false, .setHvac r m :: ton.2⟩
          else if t then
            let s := { s with pendingModes := setRole s.pendingModes r (some m) }
            let s := scheduleHvacRetry r m s
            ⟨{ s with lastHvacCommand := setRole s.lastHvacCommand r (some (m, env.now)) },
              false, false, [.setHvac r m]⟩
          else
            let s := { s with pendingModes := setRole s.pendingModes r none }
            ⟨cancelHvacRetry r s, false, true, [.setHvac r m]⟩

/-- Result of an operation without a boolean return value. -/
structure OpRes where
  state : Ctrl
  raised : Bool
  log : List DevCmd

/-- The already-satisfied guard of `_ensure_temperature` (line 966): the
device reports a setpoint within 0.05 of the requested value. -/
def tempSatisfied (st : DeviceState) (v : ℚ) : Bool :=
  match st.temperature with
  | some c => isclose c v (1/20)
  | none => false

/-- The cooldown guard of `_ensure_temperature` (lines 974-985): a command
for an equal-within-0.05 value was issued within cooldown and the device
reports a value within 0.5 of the target. -/
def tempCooldownSkip (cfg : Config) (env : Env) (r : Role) (v : ℚ)
    (st : DeviceState) (s : Ctrl) : Bool :=
  match s.lastTempCommand r with
  | some (lv, lt) =>
      let withinCooldown := decide (env.now - lt < cfg.cooldown)
      let sameTarget := isclose lv v (1/20)
      let needsRetry :=
        match st.temperature with
        | none => true
        | some c => decide (|c - v| > 1/2)
      sameTarget && withinCooldown && !needsRetry
  | none => false

/-- `_ensure_temperature`. -/
def ensureTemperature (cfg : Config) (env : Env) (r : Role) (temperature : ℚ)
    (expectPowerOn : Bool) (s : Ctrl) : OpRes :=
  match env.dev r with
  | none =>
      let s := { s with pendingTargets := setRole s.pendingTargets r (some temperature) }
      ⟨scheduleTemperatureRetry r s, false, []⟩
  | some st =>
    if st.raw.isUnavailable then
      let s := { s with pendingTargets := setRole s.pendingTargets r (some temperature) }
      ⟨scheduleTemperatureRetry r s, false, []⟩
    else if expectPowerOn ∧ st.raw.parseMode = some .off then
      let s := { s with pendingTargets := setRole s.pendingTargets r (some temperature) }
      let ton := tryTurnOn env r
      ⟨scheduleTemperatureRetry r s, false, ton.2⟩
    else if tempSatisfied st temperature then
      let s := { s with pendingTargets := setRole s.pendingTargets r none }
      let s := { s with deviceTemperatures := setRole s.deviceTemperatures r st.temperature }
      let s := { s with lastTempCommand := setRole s.lastTempCommand r none }
      ⟨cancelTemperatureRetry r s, false, []⟩
    else if tempCooldownSkip cfg env r temperature st s then
      let s := { s with
        pendingTargets := setRole s.pendingTargets r (some ((s.pendingTargets r).getD temperature)) }
      ⟨s, false, []⟩
    else
      let s := { s with pendingTargets := setRole s.pendingTargets r (some temperature) }
      match env.setTempResult r temperature with
      | .ok =>
          let s := { s with
            lastTempCommand := setRole s.lastTempCommand r (some (temperature, env.now)) }
          ⟨cancelTemperatureRetry r s, false, [.setTemp r temperature]⟩
      | .err p t =>
          if p ∧ expectPowerOn then
            let ton := tryTurnOn env r
            let s := { s with
              lastTempCommand := setRole s.lastTempCommand r (some (temperature, env.now)) }
            ⟨scheduleTemperatureRetry r s, false, .setTemp r temperature :: ton.2⟩
          else if t then
            let s := { s with
              lastTempCommand := setRole s.lastTempCommand r (some (temperature, env.now)) }
            ⟨scheduleTemperatureRetry r s, false, [.setTemp r temperature]⟩
          else
            let s := { s with pendingTargets := setRole s.pendingTargets r none }
            ⟨cancelTemperatureRetry r s, true, [.setTemp r temperature]⟩

/-- Number of `set_temperature` service calls in a command log. -/
def countSetTemp : List DevCmd → Nat
  | [] => 0
  | .setTemp _ _ :: l => countSetTemp l + 1
  | _ :: l => countSetTemp l

/-- `_should_defer_device_temperature`; also returns the mutated state (the
pending marker may be dropped). -/
def shouldDeferDeviceTemperature (cfg : Config) (env : Env) (r : Role) (value : ℚ)
    (s : Ctrl) : Bool × Ctrl :=
  match s.pendingTargets r with
  | none => (false, s)
  | some pending =>
    if isclose value pending (3/10) then
      (false, { s with pendingTargets := setRole s.pendingTargets r none })
    else
      match s.lastTempCommand r with
      | some (_, lt) =>
          if env.now - lt < cfg.cooldown then (true, s)
          else (false, { s with pendingTargets := setRole s.pendingTargets r none })
      | none => (false, { s with pendingTargets := setRole s.pendingTargets r none })

/-- `_adopt_target_from_device`, for the event's new `State` of the device in
role `r`. -/
def adoptTargetFromDevice (cfg : Config) (r : Role) (st : DeviceState) (s : Ctrl) : Ctrl :=
  if st.raw.parseMode = some .off then s
  else
    match st.temperature with
    | none => s
    | some temperature =>
      let value := clampTemperature s temperature
      let popped := { s with pendingTargets := setRole s.pendingTargets r none }
      let step : Option (ℚ × Ctrl) :=
        match s.pendingTargets r with
        | none => some (value, s)
        | some pending =>
          if isclose value pending (3/20) then some (pending, popped)
          else
            match s.deviceTemperatures r with
            | some previous =>
                if isclose value previous (1/20) then none
                else some (value, popped)
            | none => some (value, popped)
      match step with
      | none => s
      | some (v, s1) =>
        let s2 := { s1 with deviceTemperatures := setRole s1.deviceTemperatures r (some v) }
        let s3 :=
          if cfg.hasHeating ∧ r = .heating then
            let sa := { s2 with heatTarget := v, targetLow := v }
            if sa.hvacMode = .heat then { sa with targetTemperature := v } else sa
          else if cfg.hasCooling ∧ r = .cooling then
            let sa := { s2 with coolTarget := v, targetHigh := v }
            if sa.hvacMode = .cool then { sa with targetTemperature := v } else sa
          else s2
        applyTargetLimits s3

/-- The adoption guard of `_adopt_device_state` (lines 602-609): adoption is
suppressed when the controller itself issued an OFF command to a configured
device within the cooldown window (checked only on non-initial calls). -/
def adoptAllowed (cfg : Config) (env : Env) (initial : Bool) (s : Ctrl) : Bool :=
  if initial then true
  else
    let recentOff (r : Role) : Bool :=
      if cfg.hasRole r then
        match s.lastHvacCommand r with
        | some (lm, lt) => decide (lm = .off) && decide (env.now - lt < cfg.cooldown)
        | none => false
      else false
    !(recentOff .heating || recentOff .cooling)

/-- `_update_hvac_action`. -/
def updateHvacAction (cfg : Config) (env : Env) (s : Ctrl) : Ctrl :=
  if s.hvacMode = .off ∨ s.runningMode = .idle then
    { s with hvacAction := .off }
  else if s.runningMode = .heating ∧ cfg.hasHeating then
    match env.heating with
    | some st =>
      if st.raw = .ofMode .heat then
        match s.currentTemperature with
        | some c =>
            if c < s.heatTarget - 1/10 then { s with hvacAction := .heating }
            else { s with hvacAction := .idle }
        | none => { s with hvacAction := .heating }
      else { s with hvacAction := .idle }
    | none => { s with hvacAction := .idle }
  else if s.runningMode = .cooling ∧ cfg.hasCooling then
    match env.cooling with
    | some st =>
      if st.raw = .ofMode .cool then
        match s.currentTemperature with
        | some c =>
            if c > s.coolTarget + 1/10 then { s with hvacAction := .cooling }
            else { s with hvacAction := .idle }
        | none => { s with hvacAction := .cooling }
      else { s with hvacAction := .idle }
    | none => { s with hvacAction := .idle }
  else { s with hvacAction := .idle }

/-- The mode-adoption block of `_adopt_device_state` (lines 601-672). -/
def adoptModeBlock (cfg : Config) (env : Env) (initial : Bool)
    (heatingOn coolingOn : Bool) (s : Ctrl) : Ctrl :=
  if s.hvacMode = .off then
    if (heatingOn ∨ coolingOn) ∧ adoptAllowed cfg env initial s then
      if heatingOn ∧ ¬coolingOn then
        { s with hvacMode := .heat, runningMode := .heating, lastActiveMode := .heat }
      else if coolingOn ∧ ¬heatingOn then
        { s with hvacMode := .cool, runningMode := .cooling, lastActiveMode := .cool }
      else
        let chosen :=
          if s.lastActiveMode = .heat ∨ s.lastActiveMode = .cool then s.lastActiveMode
          else HVACMode.cool
        { s with hvacMode := chosen,
                 runningMode := if chosen = .heat then .heating else .cooling,
                 lastActiveMode := chosen }
    else
      { s with runningMode := .idle }
  else if s.hvacMode = .heat then
    if coolingOn ∧ ¬heatingOn then
      { s with hvacMode := .cool, runningMode := .cooling, lastActiveMode := .cool }
    else if ¬heatingOn ∧ ¬coolingOn then
      { s with hvacMode := .off, runningMode := .idle }
    else
      { s with runningMode := .heating, lastActiveMode := .heat }
  else if s.hvacMode = .cool then
    if heatingOn ∧ ¬coolingOn then
      { s with hvacMode := .heat, runningMode := .heating, lastActiveMode := .heat }
    else if ¬heatingOn ∧ ¬coolingOn then
      { s with hvacMode := .off, runningMode := .idle }
    else
      { s with runningMode := .cooling, lastActiveMode := .cool }
  else
    { s with hvacMode := .off, runningMode := .idle }

/-- The setpoint-adoption block of `_adopt_device_state` for one role
(lines 675-697). -/
def adoptDeviceTemp (cfg : Config) (env : Env) (r : Role)
    (st : Option DeviceState) (s : Ctrl) : Ctrl :=
  match st with
  | none => s
  | some d =>
    if d.raw.parseMode ≠ some .off then
      match d.temperature with
      | some t =>
        let dres := shouldDeferDeviceTemperature cfg env r t s
        if dres.1 then dres.2
        else
          let s := dres.2
          let s :=
            match r with
            | .heating =>
              let s := { s with heatTarget := t, targetLow := t }
              if s.hvacMode = HVACMode.heat then { s with targetTemperature := t } else s
            | .cooling =>
              let s := { s with coolTarget := t, targetHigh := t }
              if s.hvacMode = HVACMode.cool then { s with targetTemperature := t } else s
          let adopted : Option ℚ :=
            some (match r with | .heating => s.heatTarget | .cooling => s.coolTarget)
          let s := { s with deviceTemperatures := setRole s.deviceTemperatures r adopted }
          { s with lastTempCommand := setRole s.lastTempCommand r none }
      | none => s
    else s

/-- `_adopt_device_state`. -/
def adoptDeviceState (cfg : Config) (env : Env) (initial : Bool) (s : Ctrl) : Ctrl :=
  let heatingState := if cfg.hasHeating then env.heating else none
  let coolingState := if cfg.hasCooling then env.cooling else none
  let heatingMode := heatingState.bind (·.raw.parseMode)
  let coolingMode := coolingState.bind (·.raw.parseMode)
  let heatingOn := heatingMode = some HVACMode.heat
  let coolingOn := coolingMode = some HVACMode.cool
  let s := updateTemperatureLimits s
  let s := adoptModeBlock cfg env initial heatingOn coolingOn s
  let s := adoptDeviceTemp cfg env .heating heatingState s
  let s := adoptDeviceTemp cfg env .cooling coolingState s
  let s := applyTargetLimits s
  updateHvacAction cfg env s

/-- `_decide_running_mode`. -/
def decideRunningMode (s : Ctrl) : RunMode :=
  if s.hvacMode = .off then .idle
  else if s.hvacMode = .heat then .heating
  else if s.hvacMode = .cool then .cooling
  else if s.lastActiveMode = .cool then .cooling
  else .heating

/-- `_devices_match_mode`. -/
def devicesMatchMode (cfg : Config) (env : Env) (mode : RunMode) : Bool :=
  let heatingMode := (if cfg.hasHeating then env.heating else none).bind (·.raw.parseMode)
  let coolingMode := (if cfg.hasCooling then env.cooling else none).bind (·.raw.parseMode)
  match mode with
  | .heating =>
      (!cfg.hasHeating || decide (heatingMode = some HVACMode.heat)) &&
      (!cfg.hasCooling || !decide (coolingMode = some HVACMode.cool))
  | .cooling =>
      (!cfg.hasCooling || decide (coolingMode = some HVACMode.cool)) &&
      (!cfg.hasHeating || !decide (heatingMode = some HVACMode.heat))
  | .idle =>
      (!cfg.hasHeating || !decide (heatingMode = some HVACMode.heat)) &&
      (!cfg.hasCooling || !decide (coolingMode = some HVACMode.cool))

/-- The cooling-device half of `_apply_device_states`, run after the heating
half completed without an uncaught error. -/
def coolingLeg (cfg : Config) (env : Env) (coolingHvac : HVACMode)
    (coolingTemp : Option ℚ) (s : Ctrl) (log : List DevCmd) : OpRes :=
  if cfg.hasCooling then
    let l1 := if coolingHvac = .off then (tryTurnOff env .cooling).2 else []
    let h := ensureHvacMode cfg env .cooling coolingHvac s
    if h.raised then ⟨h.state, true, log ++ l1 ++ h.log⟩
    else
      match coolingTemp with
      | some t =>
        let tr := ensureTemperature cfg env .cooling t
          (decide (coolingHvac ≠ .off) && h.ret) h.state
        ⟨tr.state, tr.raised, log ++ l1 ++ h.log ++ tr.log⟩
      | none => ⟨h.state, false, log ++ l1 ++ h.log⟩
  else ⟨s, false, log⟩

/-- `_apply_device_states`.  The `_controlling_devices` reentrancy guard only
suppresses device-change events during the batch and needs no counterpart in
this single-invocation model.  An uncaught error aborts the batch. -/
def applyDeviceStates (cfg : Config) (env : Env)
    (heatingHvac coolingHvac : HVACMode) (heatingTemp coolingTemp : Option ℚ)
    (s : Ctrl) : OpRes :=
  if cfg.hasHeating then
    let l1 := if heatingHvac = .off then (tryTurnOff env .heating).2 else []
    let h := ensureHvacMode cfg env .heating heatingHvac s
    if h.raised then ⟨h.state, true, l1 ++ h.log⟩
    else
      let afterHeat : OpRes :=
        match heatingTemp with
        | some t =>
          let tr := ensureTemperature cfg env .heating t
            (decide (heatingHvac ≠ .off) && h.ret) h.state
          ⟨tr.state, tr.raised, l1 ++ h.log ++ tr.log⟩
        | none => ⟨h.state, false, l1 ++ h.log⟩
      if afterHeat.raised then afterHeat
      else coolingLeg cfg env coolingHvac coolingTemp afterHeat.state afterHeat.log
  else coolingLeg cfg env coolingHvac coolingTemp s []

/-- `_activate_heating`. -/
def activateHeating (cfg : Config) (env : Env) (s : Ctrl) : OpRes :=
  if cfg.hasHeating then
    let target := clampTemperature s s.heatTarget
    let s := { s with heatTarget := target, targetLow := target,
                      targetTemperature := target, lastActiveMode := .heat }
    applyDeviceStates cfg env .heat .off (some target) none s
  else ⟨s, false, []⟩

/-- `_activate_cooling`. -/
def activateCooling (cfg : Config) (env : Env) (s : Ctrl) : OpRes :=
  if cfg.hasCooling then
    let target := clampTemperature s s.coolTarget
    let s := { s with coolTarget := target, targetHigh := target,
                      targetTemperature := target, lastActiveMode := .cool }
    applyDeviceStates cfg env .off .cool none (some target) s
  else ⟨s, false, []⟩

/-- `_turn_off_all`. -/
def turnOffAll (cfg : Config) (env : Env) (s : Ctrl) : OpRes :=
  applyDeviceStates cfg env .off .off none none s

/-- `_sync_active_device_temperature`. -/
def syncActiveDeviceTemperature (cfg : Config) (env : Env) (s : Ctrl) : OpRes :=
  if s.runningMode = .heating ∧ cfg.hasHeating then
    let target := clampTemperature s s.heatTarget
    let s := { s with targetLow := target, heatTarget := target,
                      targetTemperature := target }
    ensureTemperature cfg env .heating target true s
  else if s.runningMode = .cooling ∧ cfg.hasCooling then
    let target := clampTemperature s s.coolTarget
    let s := { s with targetHigh := target, coolTarget := target,
                      targetTemperature := target }
    ensureTemperature cfg env .cooling target true s
  else ⟨s, false, []⟩

/-- `_ensure_consistency`. -/
def ensureConsistency (cfg : Config) (env : Env) (forceApply : Bool) (s : Ctrl) : OpRes :=
  let desired := decideRunningMode s
  if desired = .idle then
    let s := { s with runningMode := .idle }
    let r := turnOffAll cfg env s
    if r.raised then r
    else
      let s := applyTargetLimits r.state
      ⟨updateHvacAction cfg env s, false, r.log⟩
  else if forceApply ∨ desired ≠ s.runningMode ∨ ¬devicesMatchMode cfg env desired then
    let r := if desired = .heating then activateHeating cfg env s
             else activateCooling cfg env s
    if r.raised then r
    else
      let s := { r.state with runningMode := desired }
      let s := applyTargetLimits s
      ⟨updateHvacAction cfg env s, false, r.log⟩
  else
    let r := syncActiveDeviceTemperature cfg env s
    if r.raised then r
    else
      let s := applyTargetLimits r.state
      ⟨updateHvacAction cfg env s, false, r.log⟩

/-- The fields of the restore snapshot that `_restore_from_last_state`
reads. -/
structure Snapshot where
  stateRaw : RawState
  action : Option HVACAction
  temp : Option ℚ
  low : Option ℚ
  high : Option ℚ

/-- Lines 478-488 of `_restore_from_last_state`: the restored action (OFF
when absent or unparseable). -/
def restoreActionState (snap : Snapshot) (s : Ctrl) : Ctrl :=
  match snap.action with
  | some a => { s with hvacAction := a }
  | none => { s with hvacAction := HVACAction.off }

/-- Lines 490-501: the parsed restored mode, with AUTO translated to
HEAT / COOL based on the restored action (taken from the already-updated
state). -/
def restoreResolvedMode (snap : Snapshot) (s : Ctrl) : Option HVACMode :=
  let restoredMode := snap.stateRaw.parseMode
  if restoredMode = some HVACMode.auto then
    if s.hvacAction = .cooling then some HVACMode.cool
    else if s.hvacAction = .heating then some HVACMode.heat
    else some HVACMode.heat
  else restoredMode

/-- Lines 508-514: the target updates of the restored-HEAT branch. -/
def restoreTargetsHeat (snap : Snapshot) (s : Ctrl) : Ctrl :=
  let s :=
    match snap.temp with
    | some t => { s with heatTarget := clampTemperature s t }
    | none =>
      match snap.low with
      | some l => { s with heatTarget := clampTemperature s l }
      | none => s
  match snap.high with
  | some h => { s with coolTarget := clampTemperature s h }
  | none => s

/-- Lines 520-526: the target updates of the restored-COOL branch. -/
def restoreTargetsCool (snap : Snapshot) (s : Ctrl) : Ctrl :=
  let s :=
    match snap.temp with
    | some t => { s with coolTarget := clampTemperature s t }
    | none =>
      match snap.high with
      | some h => { s with coolTarget := clampTemperature s h }
      | none => s
  match snap.low with
  | some l => { s with heatTarget := clampTemperature s l }
  | none => s

/-- Lines 533-543: the target updates of the restored-OFF branch. -/
def restoreTargetsOff (snap : Snapshot) (s : Ctrl) : Ctrl :=
  let s :=
    match snap.low with
    | some l => { s with heatTarget := clampTemperature s l }
    | none => s
  let s :=
    match snap.high with
    | some h => { s with coolTarget := clampTemperature s h }
    | none => s
  match snap.temp with
  | some t => { s with targetTemperature := clampTemperature s t }
  | none =>
    let fallback :=
      if s.lastActiveMode = HVACMode.heat then s.heatTarget else s.coolTarget
    { s with targetTemperature := clampTemperature s fallback }

/-- Lines 508-546: the per-restored-mode state update. -/
def restoreFinal (snap : Snapshot) (restoredMode : HVACMode) (s : Ctrl) : Ctrl :=
  if restoredMode = .heat then
    let s := restoreTargetsHeat snap s
    { s with targetLow := s.heatTarget,
             targetHigh := max s.heatTarget s.coolTarget,
             targetTemperature := s.heatTarget,
             runningMode := .heating, lastActiveMode := .heat }
  else if restoredMode = .cool then
    let s := restoreTargetsCool snap s
    { s with targetHigh := s.coolTarget,
             targetLow := min s.coolTarget s.heatTarget,
             targetTemperature := s.coolTarget,
             runningMode := .cooling, lastActiveMode := .cool }
  else
    let s := restoreTargetsOff snap s
    { s with targetLow := s.heatTarget, targetHigh := s.coolTarget,
             runningMode := .idle }

/-- `_restore_from_last_state`, for a present snapshot (without one the
method returns immediately).  Lines 503-506: a supported restored mode is
adopted, an unsupported one falls back to the current mode. -/
def restoreFromLastState (snap : Snapshot) (s : Ctrl) : Ctrl :=
  let s := restoreActionState snap s
  let rs : HVACMode × Ctrl :=
    match restoreResolvedMode snap s with
    | some m =>
      if m = .heat ∨ m = .cool ∨ m = .off then (m, { s with hvacMode := m })
      else (s.hvacMode, s)
    | none => (s.hvacMode, s)
  applyTargetLimits (restoreFinal snap rs.1 rs.2)

/-- The pure target-mutation prefix of `async_set_temperature`
(lines 1061-1110), before `_apply_target_limits` and `_ensure_consistency`. -/
def setTemperaturePre (temperature targetLowArg targetHighArg : Option ℚ)
    (s : Ctrl) : Ctrl :=
  if s.hvacMode = .heat then
      let s :=
        match temperature with
        | some v => { s with heatTarget := clampTemperature s v }
        | none =>
          match targetLowArg with
          | some l => { s with heatTarget := clampTemperature s l }
          | none => s
      let s :=
        match targetHighArg with
        | some h => { s with coolTarget := clampTemperature s h }
        | none => s
      let s := if s.coolTarget < s.heatTarget then { s with coolTarget := s.heatTarget } else s
      { s with targetLow := s.heatTarget, targetHigh := s.coolTarget,
               targetTemperature := s.heatTarget, lastActiveMode := .heat }
    else if s.hvacMode = .cool then
      let s :=
        match temperature with
        | some v => { s with coolTarget := clampTemperature s v }
        | none =>
          match targetHighArg with
          | some h => { s with coolTarget := clampTemperature s h }
          | none => s
      let s :=
        match targetLowArg with
        | some l => { s with heatTarget := clampTemperature s l }
        | none => s
      let s := if s.heatTarget > s.coolTarget then { s with heatTarget := s.coolTarget } else s
      { s with targetHigh := s.coolTarget, targetLow := s.heatTarget,
               targetTemperature := s.coolTarget, lastActiveMode := .cool }
    else
      let newHeat :=
        match targetLowArg with
        | some l => clampTemperature s l
        | none => s.heatTarget
      let newCool :=
        match targetHighArg with
        | some h => clampTemperature s h
        | none => s.coolTarget
      let hc : ℚ × ℚ :=
        match temperature, targetLowArg, targetHighArg with
        | some v, none, none =>
          let mid := clampTemperature s v
          (mid, mid)
        | _, _, _ => (newHeat, newCool)
      let hc := if hc.1 > hc.2 then (hc.2, hc.1) else hc
      { s with heatTarget := hc.1, coolTarget := hc.2,
               targetLow := hc.1, targetHigh := hc.2,
               targetTemperature := if s.lastActiveMode = .cool then hc.2 else hc.1 }

/-- `async_set_temperature`, with the three optional service-call fields. -/
def asyncSetTemperature (cfg : Config) (env : Env)
    (temperature targetLowArg targetHighArg : Option ℚ) (s : Ctrl) : OpRes :=
  ensureConsistency cfg env true
    (applyTargetLimits (setTemperaturePre temperature targetLowArg targetHighArg s))

/-- The collapse of an unsupported externally supplied mode to OFF
(lines 1118-1120). -/
def supportedOrOff (mode : HVACMode) : HVACMode :=
  if mode = .off ∨ mode = .heat ∨ mode = .cool then mode else HVACMode.off

/-- The pure state-mutation prefix of `async_set_hvac_mode` for a mode change
(lines 1127-1152), before `_apply_target_limits` and `_ensure_consistency`.
`previous_target` is never `None` in this model (the attribute is initialised
to a float and only ever reassigned floats), so the `None` fallback of line
1138 collapses to the previous value. -/
def setHvacModePre (m : HVACMode) (s : Ctrl) : Ctrl :=
  let previousTarget := s.targetTemperature
  let previousRunning := s.runningMode
  let s := { s with hvacMode := m }
  let s :=
    if m = .off then
      let s := { s with runningMode := RunMode.idle }
      if previousRunning = .cooling then { s with targetTemperature := s.coolTarget }
      else if previousRunning = .heating then { s with targetTemperature := s.heatTarget }
      else { s with targetTemperature := clampTemperature s previousTarget }
    else if m = .heat then
      { s with runningMode := RunMode.heating, targetTemperature := s.heatTarget,
               lastActiveMode := HVACMode.heat }
    else
      { s with runningMode := RunMode.cooling, targetTemperature := s.coolTarget,
               lastActiveMode := HVACMode.cool }
  { s with targetLow := s.heatTarget, targetHigh := s.coolTarget }

/-- `async_set_hvac_mode`. -/
def asyncSetHvacMode (cfg : Config) (env : Env) (mode : HVACMode) (s : Ctrl) : OpRes :=
  let m := supportedOrOff mode
  if m = s.hvacMode then
    ensureConsistency cfg env true s
  else
    ensureConsistency cfg env true (applyTargetLimits (setHvacModePre m s))

/-- The list of device-reported current temperatures collected by
`_update_measurements` when no temperature sensor is configured
(lines 253-267). -/
def deviceCurrentTemps (cfg : Config) (env : Env) : List ℚ :=
  (if cfg.hasHeating then
    match env.heating with
    | some st => match st.current_temperature with | some t => [t] | none => []
    | none => []
   else []) ++
  (if cfg.hasCooling then
    match env.cooling with
    | some st => match st.current_temperature with | some t => [t] | none => []
    | none => []
   else [])

/-- `_update_measurements`. -/
def updateMeasurements (cfg : Config) (env : Env) (s : Ctrl) : Ctrl :=
  let s :=
    if cfg.hasTempSensor then
      match env.tempSensorValue with
      | some t => { s with currentTemperature := some t }
      | none => s
    else
      let temps := deviceCurrentTemps cfg env
      if temps.isEmpty then s
      else { s with currentTemperature := some (temps.sum / (temps.length : ℚ)) }
  if cfg.hasHumSensor then
    match env.humSensorValue with
    | some h => { s with currentHumidity := some h }
    | none => s
  else s

/-- The C2 invariant: only OFF / HEAT / COOL persist as the HVAC mode, and
the running mode is IDLE exactly when the HVAC mode is OFF. -/
def ModeInv (s : Ctrl) : Prop :=
  (s.hvacMode = .off ∨ s.hvacMode = .heat ∨ s.hvacMode = .cool) ∧
  (s.runningMode = .idle ↔ s.hvacMode = .off)

/-- A controller state with the `__init__` defaults (dual-device config). -/
def baseCtrl : Ctrl :=
  { currentTemperature := none, currentHumidity := none,
    heatTarget := 20, coolTarget := 25, targetTemperature := 22,
    targetLow := 20, targetHigh := 25, hvacMode := .off,
    hvacAction := .off, minTemp := 16, maxTemp := 30,
    lastActiveMode := .heat, runningMode := .idle,
    pendingTargets := fun _ => none, deviceTemperatures := fun _ => none,
    lastHvacCommand := fun _ => none, lastTempCommand := fun _ => none,
    pendingModes := fun _ => none, hvacRetryArmed := fun _ => false,
    tempRetryArmed := fun _ => false }

/-- An environment with no entity states and all commands succeeding. -/
def baseEnv : Env :=
  { heating := none, cooling := none, tempSensorValue := none,
    humSensorValue := none, now := 0,
    setHvacResult := fun _ _ => .ok, setTempResult := fun _ _ => .ok,
    turnOnResult := fun _ => .ok, turnOffResult := fun _ => .ok }

/-- A dual-device configuration with the default 120 s cooldown. -/
def dualConfig : Config :=
  { hasHeating := true, hasCooling := true, hasTempSensor := false,
    hasHumSensor := false, cooldown := 120 }

/-- A heating-only configuration. -/
def heatOnlyConfig : Config :=
  { hasHeating := true, hasCooling := false, hasTempSensor := false,
    hasHumSensor := false, cooldown := 120 }

/-- A heating device that reports mode `heat` and no setpoint attribute. -/
def heatDeviceNoTemp : DeviceState :=
  { raw := .ofMode .heat, temperature := none, current_temperature := none,
    supportsTurnOn := true, supportsTurnOff := true }

/-- A device that reports mode `off` and advertises no turn-on capability. -/
def offDeviceNoTurnOn : DeviceState :=
  { raw := .ofMode .off, temperature := none, current_temperature := none,
    supportsTurnOn := false, supportsTurnOff := false }

/-- A heating device reporting mode `heat` with setpoint 22.3. -/
def heatDevice223 : DeviceState :=
  { raw := .ofMode .heat, temperature := some (223/10), current_temperature := none,
    supportsTurnOn := true, supportsTurnOff := true }

/-- Environment of the first C3 call: heating device up, no setpoint attribute. -/
def c3Env1 : Env := { baseEnv with heating := some heatDeviceNoTemp }

/-- Environment of the second C3 call, 10 s later (within the 120 s cooldown). -/
def c3Env2 : Env := { c3Env1 with now := 10 }

/-- Environment where the heating device rejects commands with a power-off
error and cannot be turned on. -/
def c5Env : Env :=
  { baseEnv with heating := some offDeviceNoTurnOn,
                 setHvacResult := fun _ _ => .err true false }

/-- A controller state that already has a pending mode and an armed retry for
the heating device. -/
def c5Ctrl : Ctrl :=
  { baseCtrl with pendingModes := setRole baseCtrl.pendingModes .heating (some .heat),
                  hvacRetryArmed := setRole baseCtrl.hvacRetryArmed .heating true }

/-- A heating device reporting mode `heat` with setpoint 22.04 (within 0.05
of a previously adopted 22). -/
def c4Dev : DeviceState :=
  { raw := .ofMode .heat, temperature := some (551/25), current_temperature := none,
    supportsTurnOn := true, supportsTurnOff := true }

/-- A controller state whose last adopted heating setpoint is 22, with no
pending self-issued value. -/
def c4Ctrl : Ctrl :=
  { baseCtrl with
    deviceTemperatures := setRole baseCtrl.deviceTemperatures .heating (some 22) }

/-- Same state, but with a pending self-issued heating setpoint of 23. -/
def c4PendingCtrl : Ctrl :=
  { c4Ctrl with pendingTargets := setRole baseCtrl.pendingTargets .heating (some 23) }

/-- Environment where both command kinds fail with an unclassified (fatal)
error on a powered-off heating device. -/
def c6Env : Env :=
  { baseEnv with heating := some offDeviceNoTurnOn,
                 setHvacResult := fun _ _ => .err false false,
                 setTempResult := fun _ _ => .err false false }

lemma applyTargetLimits_shape (s : Ctrl) :
    ∃ a b c d e, applyTargetLimits s =
      { s with heatTarget := a, coolTarget := b, targetLow := c,
               targetHigh := d, targetTemperature := e } := by
  unfold applyTargetLimits
  split_ifs <;> exact ⟨_, _, _, _, _, rfl⟩

lemma applyTargetLimits_heatTarget (s : Ctrl) :
    (applyTargetLimits s).heatTarget = (clampedPair s).1 := by
  unfold applyTargetLimits
  split_ifs <;> rfl

lemma applyTargetLimits_coolTarget (s : Ctrl) :
    (applyTargetLimits s).coolTarget = (clampedPair s).2 := by
  unfold applyTargetLimits
  split_ifs <;> rfl

lemma applyTargetLimits_hvacMode (s : Ctrl) :
    (applyTargetLimits s).hvacMode = s.hvacMode := by
  obtain ⟨a, b, c, d, e, h⟩ := applyTargetLimits_shape s
  rw [h]

lemma applyTargetLimits_runningMode (s : Ctrl) :
    (applyTargetLimits s).runningMode = s.runningMode := by
  obtain ⟨a, b, c, d, e, h⟩ := applyTargetLimits_shape s
  rw [h]

lemma clamp_lb (s : Ctrl) (v : ℚ) : s.minTemp ≤ clampTemperature s v :=
  le_max_left _ _

lemma clamp_ub (s : Ctrl) (v : ℚ) (h : s.minTemp ≤ s.maxTemp) :
    clampTemperature s v ≤ s.maxTemp :=
  max_le h (min_le_left _ _)

lemma clamp_mono (s : Ctrl) {v w : ℚ} (h : v ≤ w) :
    clampTemperature s v ≤ clampTemperature s w :=
  max_le_max le_rfl (min_le_min le_rfl h)

lemma clamp_idem (s : Ctrl) (v : ℚ) :
    clampTemperature s (clampTemperature s v) = clampTemperature s v := by
  unfold clampTemperature
  rcases le_total s.minTemp s.maxTemp with h | h
  · rcases le_total s.maxTemp v with h2 | h2 <;>
      simp [min_def, max_def] <;> split_ifs <;> linarith
  · rcases le_total s.maxTemp v with h2 | h2 <;>
      simp [min_def, max_def] <;> split_ifs <;> linarith

/-- C1: for every controller state with coherent bounds, after
`_apply_target_limits` the invariant
`minTemp ≤ heatTarget ≤ coolTarget ≤ maxTemp` holds; when the clamped
targets conflict (`heatTarget > coolTarget`), the conflict is repaired by
moving the target that does not correspond to the active mode — the heat
target is pulled down to the cool target when the mode is COOL (or, when
neither HEAT nor COOL is active, when `lastActiveMode` is COOL), and the
cool target is pushed up to the heat target otherwise; without a conflict
both targets are simply re-clamped. -/
theorem C1_applyTargetLimits_invariant (s : Ctrl) (hmm : s.minTemp ≤ s.maxTemp) :
    (s.minTemp ≤ (applyTargetLimits s).heatTarget ∧
      (applyTargetLimits s).heatTarget ≤ (applyTargetLimits s).coolTarget ∧
      (applyTargetLimits s).coolTarget ≤ s.maxTemp) ∧
    (clampTemperature s s.heatTarget > clampTemperature s s.coolTarget →
      ((s.hvacMode = .cool ∨
          (s.hvacMode ≠ .cool ∧ s.hvacMode ≠ .heat ∧ s.lastActiveMode = .cool)) →
        (applyTargetLimits s).heatTarget = clampTemperature s s.coolTarget ∧
        (applyTargetLimits s).coolTarget = clampTemperature s s.coolTarget) ∧
      ((s.hvacMode = .heat ∨
          (s.hvacMode ≠ .cool ∧ s.hvacMode ≠ .heat ∧ s.lastActiveMode ≠ .cool)) →
        (applyTargetLimits s).heatTarget = clampTemperature s s.heatTarget ∧
        (applyTargetLimits s).coolTarget = clampTemperature s s.heatTarget)) ∧
    (¬ clampTemperature s s.heatTarget > clampTemperature s s.coolTarget →
      (applyTargetLimits s).heatTarget = clampTemperature s s.heatTarget ∧
      (applyTargetLimits s).coolTarget = clampTemperature s s.coolTarget) := by
  rw [applyTargetLimits_heatTarget, applyTargetLimits_coolTarget]
  have hlb1 := clamp_lb s s.heatTarget
  have hlb2 := clamp_lb s s.coolTarget
  have hub1 := clamp_ub s s.heatTarget hmm
  have hub2 := clamp_ub s s.coolTarget hmm
  by_cases hgt : clampTemperature s s.heatTarget > clampTemperature s s.coolTarget
  · by_cases hcool : s.hvacMode = .cool
    · have hp : clampedPair s =
          (clampTemperature s s.coolTarget, clampTemperature s s.coolTarget) := by
        unfold clampedPair
        rw [if_pos hgt, if_pos hcool]
      rw [hp]
      refine ⟨⟨hlb2, le_rfl, hub2⟩,
        fun _ => ⟨fun _ => ⟨rfl, rfl⟩, fun hcase => ?_⟩, fun h => absurd hgt h⟩
      simp_all
    · by_cases hheat : s.hvacMode = .heat
      · have hp : clampedPair s =
            (clampTemperature s s.heatTarget, clampTemperature s s.heatTarget) := by
          unfold clampedPair
          rw [if_pos hgt, if_neg hcool, if_pos hheat]
        rw [hp]
        refine ⟨⟨hlb1, le_rfl, hub1⟩,
          fun _ => ⟨fun hcase => ?_, fun _ => ⟨rfl, rfl⟩⟩, fun h => absurd hgt h⟩
        simp_all
      · by_cases hlac : s.lastActiveMode = .cool
        · have hp : clampedPair s =
              (clampTemperature s s.coolTarget, clampTemperature s s.coolTarget) := by
            unfold clampedPair
            rw [if_pos hgt, if_neg hcool, if_neg hheat, if_pos hlac]
          rw [hp]
          refine ⟨⟨hlb2, le_rfl, hub2⟩,
            fun _ => ⟨fun _ => ⟨rfl, rfl⟩, fun hcase => ?_⟩, fun h => absurd hgt h⟩
          simp_all
        · have hp : clampedPair s =
              (clampTemperature s s.heatTarget, clampTemperature s s.heatTarget) := by
            unfold clampedPair
            rw [if_pos hgt, if_neg hcool, if_neg hheat, if_neg hlac]
          rw [hp]
          refine ⟨⟨hlb1, le_rfl, hub1⟩,
            fun _ => ⟨fun hcase => ?_, fun _ => ⟨rfl, rfl⟩⟩, fun h => absurd hgt h⟩
          simp_all
  · have hp : clampedPair s =
        (clampTemperature s s.heatTarget, clampTemperature s s.coolTarget) := by
      unfold clampedPair
      rw [if_neg hgt]
    rw [hp]
    exact ⟨⟨hlb1, not_lt.mp hgt, hub2⟩, fun h => absurd h hgt, fun _ => ⟨rfl, rfl⟩⟩

/-- Witness for C1 at a concrete conflicted state. -/
theorem C1_applyTargetLimits_invariant_witness :
    ((16 : ℚ) ≤ 30) ∧
      (let s : Ctrl :=
        { currentTemperature := none, currentHumidity := none,
          heatTarget := 26, coolTarget := 24, targetTemperature := 22,
          targetLow := 20, targetHigh := 25, hvacMode := .heat,
          hvacAction := .off, minTemp := 16, maxTemp := 30,
          lastActiveMode := .heat, runningMode := .idle,
          pendingTargets := fun _ => none, deviceTemperatures := fun _ => none,
          lastHvacCommand := fun _ => none, lastTempCommand := fun _ => none,
          pendingModes := fun _ => none, hvacRetryArmed := fun _ => false,
          tempRetryArmed := fun _ => false };
       s.minTemp ≤ (applyTargetLimits s).heatTarget ∧
         (applyTargetLimits s).heatTarget ≤ (applyTargetLimits s).coolTarget ∧
         (applyTargetLimits s).coolTarget ≤ s.maxTemp) := by
  refine ⟨by norm_num, ?_⟩
  exact (C1_applyTargetLimits_invariant _ (by norm_num)).1

lemma setRole_same {α : Type} (f : Role → α) (r : Role) (v : α) : setRole f r v r = v := by
  simp [setRole]

lemma isclose_self (a tol : ℚ) : isclose a a tol = true := by
  unfold isclose
  simp only [sub_self, abs_zero, decide_eq_true_eq]
  exact le_max_of_le_left (by positivity)

lemma ensureHvacMode_shape (cfg : Config) (env : Env) (r : Role) (m : HVACMode) (s : Ctrl) :
    ∃ pm ra lh, (ensureHvacMode cfg env r m s).state =
      { s with pendingModes := pm, hvacRetryArmed := ra, lastHvacCommand := lh } := by
  unfold ensureHvacMode scheduleHvacRetry cancelHvacRetry
  rcases hd : env.dev r with _ | st <;> simp only [hd]
  · exact ⟨_, _, _, rfl⟩
  · rcases ho : env.setHvacResult r m with _ | ⟨p, t⟩ <;>
      simp only [ho] <;> split_ifs <;> exact ⟨_, _, _, rfl⟩

lemma ensureTemperature_shape (cfg : Config) (env : Env) (r : Role) (v : ℚ) (e : Bool)
    (s : Ctrl) :
    ∃ pt dt lt tr, (ensureTemperature cfg env r v e s).state =
      { s with pendingTargets := pt, deviceTemperatures := dt,
               lastTempCommand := lt, tempRetryArmed := tr } := by
  unfold ensureTemperature scheduleTemperatureRetry cancelTemperatureRetry
  rcases hd : env.dev r with _ | st <;> simp only [hd]
  · exact ⟨_, _, _, _, rfl⟩
  · rcases ho : env.setTempResult r v with _ | ⟨p, t⟩ <;>
      simp only [ho] <;> split_ifs <;> exact ⟨_, _, _, _, rfl⟩

lemma tryTurnOn_log (env : Env) (r : Role) :
    (tryTurnOn env r).2 = [] ∨ (tryTurnOn env r).2 = [DevCmd.turnOn r] := by
  unfold tryTurnOn
  rcases hd : env.dev r with _ | st <;> simp only [hd]
  · simp
  · rcases ho : env.turnOnResult r with _ | ⟨p, t⟩ <;>
      simp only [ho] <;> split_ifs <;> simp

lemma countSetTemp_tryTurnOn (env : Env) (r : Role) :
    countSetTemp (tryTurnOn env r).2 = 0 := by
  rcases tryTurnOn_log env r with h | h <;> simp [h, countSetTemp]

lemma ensureTemperature_count_le (cfg : Config) (env : Env) (r : Role) (v : ℚ) (e : Bool)
    (s : Ctrl) :
    countSetTemp (ensureTemperature cfg env r v e s).log ≤ 1 := by
  unfold ensureTemperature
  rcases hd : env.dev r with _ | st <;> simp only [hd]
  · simp [countSetTemp]
  · rcases ho : env.setTempResult r v with _ | ⟨p, t⟩ <;>
      simp only [ho] <;> split_ifs <;>
      simp [countSetTemp, countSetTemp_tryTurnOn]

lemma ensureTemperature_issued_last (cfg : Config) (env : Env) (r : Role) (v : ℚ)
    (e : Bool) (s : Ctrl)
    (hnr : (ensureTemperature cfg env r v e s).raised = false)
    (hc : countSetTemp (ensureTemperature cfg env r v e s).log ≠ 0) :
    (ensureTemperature cfg env r v e s).state.lastTempCommand r = some (v, env.now) := by
  unfold ensureTemperature at hnr hc ⊢
  rcases hd : env.dev r with _ | st <;> simp only [hd] at hnr hc ⊢
  · simp [countSetTemp] at hc
  · rcases ho : env.setTempResult r v with _ | ⟨p, t⟩ <;>
      simp only [ho] at hnr hc ⊢ <;> split_ifs at hnr hc ⊢ <;>
      simp_all [countSetTemp, countSetTemp_tryTurnOn, scheduleTemperatureRetry,
        cancelTemperatureRetry, setRole]

lemma ensureTemperature_cooldown_silent (cfg : Config) (env : Env) (r : Role) (v : ℚ)
    (e : Bool) (s : Ctrl) (st : DeviceState) (t1 c : ℚ)
    (hd : env.dev r = some st)
    (hlast : s.lastTempCommand r = some (v, t1))
    (hwin : env.now - t1 < cfg.cooldown)
    (hct : st.temperature = some c) (hdr : |c - v| ≤ 1/2) :
    countSetTemp (ensureTemperature cfg env r v e s).log = 0 := by
  have hskip : tempCooldownSkip cfg env r v st s = true := by
    unfold tempCooldownSkip
    rw [hlast, hct]
    simp only [isclose_self, Bool.true_and, Bool.and_eq_true, decide_eq_true_eq,
      Bool.not_eq_true', decide_eq_false_iff_not, not_lt]
    exact ⟨hwin, hdr⟩
  unfold ensureTemperature
  simp only [hd]
  split_ifs <;>
    first
      | simp [countSetTemp, countSetTemp_tryTurnOn]
      | exact absurd hskip (by assumption)

/-- C6: when `_ensure_hvac_mode` or `_ensure_temperature` reaches the service
call and it fails with an error classified as neither a power-off error nor a
temporary command error, the pending mode / pending target and the armed
retry timer for that device and command kind are cleared, and the error
propagates uncaught to the caller. -/
theorem C6_fatal_error_clears_and_raises :
    (∀ (cfg : Config) (env : Env) (r : Role) (m : HVACMode) (s : Ctrl) (st : DeviceState),
      env.dev r = some st → st.raw.isUnavailable = false →
      st.raw.parseMode ≠ some m →
      hvacCooldownSkip cfg env r m s = false →
      env.setHvacResult r m = .err false false →
      (ensureHvacMode cfg env r m s).raised = true ∧
      (ensureHvacMode cfg env r m s).state.pendingModes r = none ∧
      (ensureHvacMode cfg env r m s).state.hvacRetryArmed r = false) ∧
    (∀ (cfg : Config) (env : Env) (r : Role) (v : ℚ) (e : Bool) (s : Ctrl) (st : DeviceState),
      env.dev r = some st → st.raw.isUnavailable = false →
      ¬(e = true ∧ st.raw.parseMode = some HVACMode.off) →
      tempSatisfied st v = false →
      tempCooldownSkip cfg env r v st s = false →
      env.setTempResult r v = .err false false →
      (ensureTemperature cfg env r v e s).raised = true ∧
      (ensureTemperature cfg env r v e s).state.pendingTargets r = none ∧
      (ensureTemperature cfg env r v e s).state.tempRetryArmed r = false) := by
  constructor
  · intro cfg env r m s st hd hun hne hskip ho
    unfold ensureHvacMode
    simp [hd, hun, hne, hskip, ho, cancelHvacRetry, setRole]
  · intro cfg env r v e s st hd hun hpo hsat hskip ho
    unfold ensureTemperature
    simp [hd, hun, hpo, hsat, hskip, ho, cancelTemperatureRetry, setRole]

/-- Witness for C6: both fatal-error conclusions at a concrete input. -/
theorem C6_fatal_error_witness :
    ((ensureHvacMode heatOnlyConfig c6Env .heating .heat baseCtrl).raised = true ∧
      (ensureHvacMode heatOnlyConfig c6Env .heating .heat baseCtrl).state.pendingModes
        Role.heating = none ∧
      (ensureHvacMode heatOnlyConfig c6Env .heating .heat baseCtrl).state.hvacRetryArmed
        Role.heating = false) ∧
    ((ensureTemperature heatOnlyConfig c6Env .heating 22 false baseCtrl).raised = true ∧
      (ensureTemperature heatOnlyConfig c6Env .heating 22 false baseCtrl).state.pendingTargets
        Role.heating = none ∧
      (ensureTemperature heatOnlyConfig c6Env .heating 22 false baseCtrl).state.tempRetryArmed
        Role.heating = false) := by
  constructor
  · exact C6_fatal_error_clears_and_raises.1 heatOnlyConfig c6Env .heating .heat baseCtrl
      offDeviceNoTurnOn rfl rfl (by decide) (by decide) rfl
  · exact C6_fatal_error_clears_and_raises.2 heatOnlyConfig c6Env .heating 22 false baseCtrl
      offDeviceNoTurnOn rfl rfl (by decide) (by decide) (by decide) rfl

/-- C3, counterexample: the heating device is available in mode `heat` but
reports no setpoint attribute.  Two `_ensure_temperature` calls for the same
value 22, the second 10 s after the first (within the 120 s cooldown), both
issue a `set_temperature` command: on the second call the device's reported
value is unknown, so the cooldown skip does not apply
(`needs_retry` is true at line 977). -/
theorem C3_cooldown_counterexample :
    c3Env2.now - c3Env1.now < heatOnlyConfig.cooldown ∧
    countSetTemp (ensureTemperature heatOnlyConfig c3Env1 .heating 22 true baseCtrl).log +
      countSetTemp (ensureTemperature heatOnlyConfig c3Env2 .heating 22 true
        (ensureTemperature heatOnlyConfig c3Env1 .heating 22 true baseCtrl).state).log = 2 := by
  constructor
  · norm_num [c3Env1, c3Env2, heatOnlyConfig, baseEnv]
  · norm_num [ensureTemperature, tempSatisfied, tempCooldownSkip, isclose,
      scheduleTemperatureRetry, cancelTemperatureRetry, setRole, countSetTemp,
      c3Env1, c3Env2, heatOnlyConfig, baseEnv, baseCtrl, heatDeviceNoTemp,
      Env.dev, RawState.isUnavailable, RawState.parseMode,
      sup_eq_max, max_def, abs_of_nonneg, abs_of_nonpos,
      (show ¬ HVACMode.heat = HVACMode.off by decide)]

/-- C3, amended: two `_ensure_temperature` calls for the same value, the
second within the cooldown window of the first, issue at most one
`set_temperature` command in total, provided the first call did not raise and
at the second call the device reports a setpoint within 0.5 of the value (no
evidence of drift; without that proviso the cooldown skip is bypassed by
`needs_retry` and a second command is issued). -/
theorem C3_cooldown_amended (cfg : Config) (env1 env2 : Env) (r : Role) (v : ℚ)
    (e1 e2 : Bool) (s : Ctrl) (st : DeviceState) (c : ℚ)
    (hraise : (ensureTemperature cfg env1 r v e1 s).raised = false)
    (hwin : env2.now - env1.now < cfg.cooldown)
    (hdev : env2.dev r = some st)
    (hct : st.temperature = some c) (hdr : |c - v| ≤ 1/2) :
    countSetTemp (ensureTemperature cfg env1 r v e1 s).log +
      countSetTemp (ensureTemperature cfg env2 r v e2
        (ensureTemperature cfg env1 r v e1 s).state).log ≤ 1 := by
  rcases Nat.eq_zero_or_pos
      (countSetTemp (ensureTemperature cfg env1 r v e1 s).log) with h0 | hpos
  · rw [h0]
    simpa using ensureTemperature_count_le cfg env2 r v e2 _
  · have h1le := ensureTemperature_count_le cfg env1 r v e1 s
    have hlast := ensureTemperature_issued_last cfg env1 r v e1 s hraise (by omega)
    have h2zero := ensureTemperature_cooldown_silent cfg env2 r v e2
      (ensureTemperature cfg env1 r v e1 s).state st env1.now c hdev hlast hwin hct hdr
    omega

/-- Witness for the amended C3 at a concrete input: the device reports 22.3,
within 0.5 of the requested 22, so the second call is silent. -/
theorem C3_cooldown_amended_witness :
    countSetTemp (ensureTemperature heatOnlyConfig
        { c3Env1 with heating := some heatDevice223 } .heating 22 true baseCtrl).log +
      countSetTemp (ensureTemperature heatOnlyConfig
        { c3Env2 with heating := some heatDevice223 } .heating 22 true
        (ensureTemperature heatOnlyConfig
          { c3Env1 with heating := some heatDevice223 } .heating 22 true baseCtrl).state).log
      ≤ 1 := by
  refine C3_cooldown_amended heatOnlyConfig _ _ .heating 22 true true baseCtrl
    heatDevice223 (223/10) ?_ ?_ ?_ ?_ ?_
  · norm_num [ensureTemperature, tempSatisfied, tempCooldownSkip, isclose,
      scheduleTemperatureRetry, cancelTemperatureRetry, setRole,
      c3Env1, heatOnlyConfig, baseEnv, baseCtrl, heatDevice223,
      Env.dev, RawState.isUnavailable, RawState.parseMode,
      sup_eq_max, max_def, abs_of_nonneg, abs_of_nonpos,
      (show ¬ HVACMode.heat = HVACMode.off by decide)]
  · norm_num [c3Env1, c3Env2, heatOnlyConfig, baseEnv]
  · rfl
  · rfl
  · norm_num [heatDevice223, abs_of_nonneg]

/-- C5, counterexample: the heating device is available (reporting `off`) but
does not advertise `TURN_ON`; commanding HEAT fails with a power-off error.
The dispatcher attempts the power-on, the attempt fails, and — contrary to
the claim — the pending mode is cleared (not recorded) and no retry is
armed; the call still returns false without raising. -/
theorem C5_powerOff_counterexample :
    c5Env.setHvacResult Role.heating HVACMode.heat = CmdOutcome.err true false ∧
    c5Ctrl.pendingModes Role.heating = some HVACMode.heat ∧
    DevCmd.setHvac Role.heating HVACMode.heat ∈
      (ensureHvacMode heatOnlyConfig c5Env .heating .heat c5Ctrl).log ∧
    (ensureHvacMode heatOnlyConfig c5Env .heating .heat c5Ctrl).raised = false ∧
    (ensureHvacMode heatOnlyConfig c5Env .heating .heat c5Ctrl).ret = false ∧
    (ensureHvacMode heatOnlyConfig c5Env .heating .heat c5Ctrl).state.pendingModes
      Role.heating = none ∧
    (ensureHvacMode heatOnlyConfig c5Env .heating .heat c5Ctrl).state.hvacRetryArmed
      Role.heating = false := by
  refine ⟨rfl, by simp [c5Ctrl, setRole, baseCtrl], ?_, ?_, ?_, ?_, ?_⟩ <;>
    simp [ensureHvacMode, hvacCooldownSkip, tryTurnOn, scheduleHvacRetry,
      cancelHvacRetry, setRole, c5Env, c5Ctrl, baseEnv, baseCtrl, offDeviceNoTurnOn,
      Env.dev, RawState.isUnavailable, RawState.parseMode]

/-- C5, amended: when `_ensure_hvac_mode` commands a non-OFF mode on an
available device (outside the cooldown skip) and the command fails with a
power-off error, the dispatcher first attempts to power the device on and
returns false without raising; if the power-on attempt succeeds it records
the pending mode, arms a retry, and records the attempt timestamp; if the
power-on attempt fails it clears the pending mode and the retry instead. -/
theorem C5_powerOff_amended (cfg : Config) (env : Env) (r : Role) (m : HVACMode)
    (s : Ctrl) (st : DeviceState) (tb : Bool)
    (hdev : env.dev r = some st) (hun : st.raw.isUnavailable = false)
    (hne : st.raw.parseMode ≠ some m) (hoff : m ≠ .off)
    (hskip : hvacCooldownSkip cfg env r m s = false)
    (herr : env.setHvacResult r m = .err true tb) :
    (ensureHvacMode cfg env r m s).raised = false ∧
    (ensureHvacMode cfg env r m s).ret = false ∧
    (ensureHvacMode cfg env r m s).log =
      DevCmd.setHvac r m :: (tryTurnOn env r).2 ∧
    ((tryTurnOn env r).1 = true →
      (ensureHvacMode cfg env r m s).state.pendingModes r = some m ∧
      (ensureHvacMode cfg env r m s).state.hvacRetryArmed r = true ∧
      (ensureHvacMode cfg env r m s).state.lastHvacCommand r = some (m, env.now)) ∧
    ((tryTurnOn env r).1 = false →
      (ensureHvacMode cfg env r m s).state.pendingModes r = none ∧
      (ensureHvacMode cfg env r m s).state.hvacRetryArmed r = false) := by
  unfold ensureHvacMode
  rcases hton : (tryTurnOn env r).1 <;>
    simp [hdev, hun, hne, hskip, herr, hoff, hton, scheduleHvacRetry,
      cancelHvacRetry, setRole]

/-- Witness for the amended C5 at the concrete counterexample environment
(where the power-on attempt fails). -/
theorem C5_powerOff_amended_witness :
    (ensureHvacMode heatOnlyConfig c5Env .heating .heat c5Ctrl).raised = false ∧
    (ensureHvacMode heatOnlyConfig c5Env .heating .heat c5Ctrl).ret = false := by
  have h := C5_powerOff_amended heatOnlyConfig c5Env .heating .heat c5Ctrl
    offDeviceNoTurnOn false rfl rfl (by decide) (by decide) (by decide) rfl
  exact ⟨h.1, h.2.1⟩

/-- C4, counterexample: the externally observed setpoint 22.04 is within 0.05
of the last adopted value 22, but no pending self-issued value exists, so the
0.05-ignore branch (line 568) is not reached: `heatTarget` is mutated from 20
to 22.04. -/
theorem C4_tolerance_counterexample :
    isclose (clampTemperature c4Ctrl (551/25)) 22 (1/20) = true ∧
    c4Ctrl.deviceTemperatures Role.heating = some 22 ∧
    c4Ctrl.pendingTargets Role.heating = none ∧
    (adoptTargetFromDevice heatOnlyConfig .heating c4Dev c4Ctrl).heatTarget ≠
      c4Ctrl.heatTarget := by
  refine ⟨?_, by simp [c4Ctrl, setRole, baseCtrl], by simp [c4Ctrl, baseCtrl], ?_⟩
  · norm_num [isclose, clampTemperature, c4Ctrl, baseCtrl,
      sup_eq_max, max_def, min_def, abs_of_nonneg, abs_of_nonpos]
  · norm_num [adoptTargetFromDevice, applyTargetLimits, clampedPair, isclose,
      clampTemperature, setRole, c4Dev, c4Ctrl, baseCtrl, heatOnlyConfig,
      RawState.parseMode, sup_eq_max, max_def, min_def, abs_of_nonneg, abs_of_nonpos,
      (show ¬ HVACMode.heat = HVACMode.off by decide),
      (show ¬ HVACMode.off = HVACMode.heat by decide),
      (show ¬ HVACMode.off = HVACMode.cool by decide)]

/-- C4, amended: an externally observed setpoint whose clamped value is
within 0.05 of the last adopted value is ignored (state returned unchanged)
provided a pending self-issued value exists that the observed value does not
match within 0.15; without a pending value the update is adopted and the
targets are mutated. -/
theorem C4_tolerance_amended (cfg : Config) (r : Role) (st : DeviceState) (s : Ctrl)
    (tv p q : ℚ)
    (hct : st.temperature = some tv)
    (hp : s.pendingTargets r = some p)
    (hnsnap : isclose (clampTemperature s tv) p (3/20) = false)
    (hq : s.deviceTemperatures r = some q)
    (hcl : isclose (clampTemperature s tv) q (1/20) = true) :
    adoptTargetFromDevice cfg r st s = s := by
  by_cases hparse : st.raw.parseMode = some HVACMode.off
  · simp [adoptTargetFromDevice, hparse]
  · have hcl2 := hcl
    have hnsnap2 := hnsnap
    simp only [one_div] at hcl2 hnsnap2
    simp [adoptTargetFromDevice, hparse, hct, hp, hq, hnsnap, hcl, hnsnap2, hcl2]

/-- Witness for the amended C4: observed 22.04 with last adopted 22 and stale
pending 23 leaves the state untouched. -/
theorem C4_tolerance_amended_witness :
    adoptTargetFromDevice heatOnlyConfig .heating c4Dev c4PendingCtrl = c4PendingCtrl := by
  apply C4_tolerance_amended heatOnlyConfig .heating c4Dev c4PendingCtrl
    (551/25) 23 22
  · rfl
  · simp [c4PendingCtrl, c4Ctrl, setRole, baseCtrl]
  · norm_num [isclose, clampTemperature, c4PendingCtrl, c4Ctrl, baseCtrl,
      sup_eq_max, max_def, min_def, abs_of_nonpos, abs_of_nonneg]
  · simp [c4PendingCtrl, c4Ctrl, setRole, baseCtrl]
  · norm_num [isclose, clampTemperature, c4PendingCtrl, c4Ctrl, baseCtrl,
      sup_eq_max, max_def, min_def, abs_of_nonpos, abs_of_nonneg]

/-- C8: the action reported by `_update_hvac_action`.  With `hvacMode = OFF`
or `runningMode = IDLE` the action is OFF.  Otherwise, in heating mode, if
the heating device does not report power mode `heat` the action is IDLE;
if it does, the action is HEATING exactly when the known current temperature
is below `heatTarget - 0.1` (else IDLE), and HEATING when the current
temperature is unknown.  Cooling is symmetric with `coolTarget + 0.1`. -/
theorem C8_updateHvacAction_cases (cfg : Config) (env : Env) (s : Ctrl) :
    ((s.hvacMode = .off ∨ s.runningMode = .idle) →
      (updateHvacAction cfg env s).hvacAction = .off) ∧
    (s.hvacMode ≠ .off → s.runningMode = .heating → cfg.hasHeating = true →
      (∀ st, env.heating = some st → st.raw ≠ .ofMode HVACMode.heat) →
      (updateHvacAction cfg env s).hvacAction = .idle) ∧
    (s.hvacMode ≠ .off → s.runningMode = .heating → cfg.hasHeating = true →
      ∀ st, env.heating = some st → st.raw = .ofMode HVACMode.heat →
      (∀ c, s.currentTemperature = some c →
        (updateHvacAction cfg env s).hvacAction =
          (if c < s.heatTarget - 1/10 then HVACAction.heating else HVACAction.idle)) ∧
      (s.currentTemperature = none →
        (updateHvacAction cfg env s).hvacAction = .heating)) ∧
    (s.hvacMode ≠ .off → s.runningMode = .cooling → cfg.hasCooling = true →
      (∀ st, env.cooling = some st → st.raw ≠ .ofMode HVACMode.cool) →
      (updateHvacAction cfg env s).hvacAction = .idle) ∧
    (s.hvacMode ≠ .off → s.runningMode = .cooling → cfg.hasCooling = true →
      ∀ st, env.cooling = some st → st.raw = .ofMode HVACMode.cool →
      (∀ c, s.currentTemperature = some c →
        (updateHvacAction cfg env s).hvacAction =
          (if c > s.coolTarget + 1/10 then HVACAction.cooling else HVACAction.idle)) ∧
      (s.currentTemperature = none →
        (updateHvacAction cfg env s).hvacAction = .cooling)) := by
  refine ⟨?_, ?_, ?_, ?_, ?_⟩
  · intro h
    unfold updateHvacAction
    rw [if_pos h]
  · intro h1 h2 h3 h4
    rcases henv : env.heating with _ | st
    · simp [updateHvacAction, h1, h2, h3, henv]
    · have hne := h4 st henv
      simp [updateHvacAction, h1, h2, h3, henv, hne]
  · intro h1 h2 h3 st henv hraw
    constructor
    · intro c hct
      simp only [updateHvacAction, h1, h2, h3, henv, hraw, hct]
      simp
      split_ifs <;> rfl
    · intro hct
      simp [updateHvacAction, h1, h2, h3, henv, hraw, hct]
  · intro h1 h2 h3 h4
    rcases henv : env.cooling with _ | st
    · simp [updateHvacAction, h1, h2, h3, henv]
    · have hne := h4 st henv
      simp [updateHvacAction, h1, h2, h3, henv, hne]
  · intro h1 h2 h3 st henv hraw
    constructor
    · intro c hct
      simp only [updateHvacAction, h1, h2, h3, henv, hraw, hct]
      simp
      split_ifs <;> rfl
    · intro hct
      simp [updateHvacAction, h1, h2, h3, henv, hraw, hct]

/-- Witness for C8: OFF state reports OFF, and an active heating device with
current temperature 18 below target 20 − 0.1 reports HEATING. -/
theorem C8_updateHvacAction_witness :
    (updateHvacAction heatOnlyConfig c3Env1 baseCtrl).hvacAction = HVACAction.off ∧
    (updateHvacAction heatOnlyConfig c3Env1
      { baseCtrl with hvacMode := .heat, runningMode := .heating,
                      currentTemperature := some 18 }).hvacAction = HVACAction.heating := by
  constructor
  · exact (C8_updateHvacAction_cases heatOnlyConfig c3Env1 baseCtrl).1 (Or.inl rfl)
  · have h := (((C8_updateHvacAction_cases heatOnlyConfig c3Env1
      { baseCtrl with hvacMode := .heat, runningMode := .heating,
                      currentTemperature := some 18 }).2.2.1)
      (by decide) rfl rfl heatDeviceNoTemp rfl rfl).1 18 rfl
    rw [h]
    norm_num [baseCtrl]

lemma updateMeasurements_currentTemperature (cfg : Config) (env : Env) (s : Ctrl)
    (hts : cfg.hasTempSensor = false) :
    (updateMeasurements cfg env s).currentTemperature =
      (if (deviceCurrentTemps cfg env).isEmpty then s.currentTemperature
       else some ((deviceCurrentTemps cfg env).sum /
         ((deviceCurrentTemps cfg env).length : ℚ))) := by
  unfold updateMeasurements
  rcases hh : cfg.hasHumSensor <;> rcases hv : env.humSensorValue with _ | hval <;>
    simp [hts, hh, hv] <;> split_ifs <;> simp_all

/-- C9: with no temperature sensor configured, `_update_measurements` sets
the current temperature to the arithmetic mean of the configured devices'
parseable reported current temperatures — the single value for one reporting
device, the average for two — and leaves it unchanged when no device reports
a parseable value. -/
theorem C9_device_mean (cfg : Config) (env : Env) (s : Ctrl)
    (hts : cfg.hasTempSensor = false) :
    (deviceCurrentTemps cfg env = [] →
      (updateMeasurements cfg env s).currentTemperature = s.currentTemperature) ∧
    (∀ t, deviceCurrentTemps cfg env = [t] →
      (updateMeasurements cfg env s).currentTemperature = some t) ∧
    (∀ t u, deviceCurrentTemps cfg env = [t, u] →
      (updateMeasurements cfg env s).currentTemperature = some ((t + u) / 2)) ∧
    (deviceCurrentTemps cfg env ≠ [] →
      (updateMeasurements cfg env s).currentTemperature =
        some ((deviceCurrentTemps cfg env).sum /
          ((deviceCurrentTemps cfg env).length : ℚ))) := by
  refine ⟨?_, ?_, ?_, ?_⟩
  · intro h
    rw [updateMeasurements_currentTemperature cfg env s hts, h]
    rfl
  · intro t h
    rw [updateMeasurements_currentTemperature cfg env s hts, h]
    norm_num
  · intro t u h
    rw [updateMeasurements_currentTemperature cfg env s hts, h]
    norm_num
  · intro h
    rw [updateMeasurements_currentTemperature cfg env s hts]
    rw [if_neg (by simpa [List.isEmpty_iff] using h)]

/-- Witness for C9: one device reporting 21 yields 21; two devices reporting
20 and 24 yield 22. -/
theorem C9_device_mean_witness :
    (updateMeasurements heatOnlyConfig
      { baseEnv with heating := some { heatDeviceNoTemp with current_temperature := some 21 } }
      baseCtrl).currentTemperature = some 21 ∧
    (updateMeasurements dualConfig
      { baseEnv with
        heating := some { heatDeviceNoTemp with current_temperature := some 20 },
        cooling := some { heatDeviceNoTemp with current_temperature := some 24 } }
      baseCtrl).currentTemperature = some ((20 + 24) / 2) := by
  constructor
  · exact (C9_device_mean heatOnlyConfig _ baseCtrl rfl).2.1 21 rfl
  · exact (C9_device_mean dualConfig _ baseCtrl rfl).2.2.1 20 24 rfl

lemma applyTargetLimits_lastActiveMode (s : Ctrl) :
    (applyTargetLimits s).lastActiveMode = s.lastActiveMode := by
  obtain ⟨a, b, c, d, e, h⟩ := applyTargetLimits_shape s
  rw [h]

lemma updateTemperatureLimits_shape (s : Ctrl) :
    ∃ mn mx a b c d e, updateTemperatureLimits s =
      { s with minTemp := mn, maxTemp := mx, heatTarget := a, coolTarget := b,
               targetLow := c, targetHigh := d, targetTemperature := e } := by
  unfold updateTemperatureLimits
  obtain ⟨a, b, c, d, e, h⟩ := applyTargetLimits_shape
    { s with minTemp := DEFAULT_MIN_TEMP, maxTemp := DEFAULT_MAX_TEMP }
  rw [h]
  exact ⟨_, _, _, _, _, _, _, rfl⟩

lemma updateHvacAction_shape (cfg : Config) (env : Env) (s : Ctrl) :
    ∃ a, updateHvacAction cfg env s = { s with hvacAction := a } := by
  unfold updateHvacAction
  rcases hh : env.heating with _ | sth <;> rcases hc : env.cooling with _ | stc <;>
    rcases hct : s.currentTemperature with _ | c <;>
    simp only [hh, hc, hct] <;> split_ifs <;> exact ⟨_, rfl⟩

lemma shouldDeferDeviceTemperature_shape (cfg : Config) (env : Env) (r : Role)
    (v : ℚ) (s : Ctrl) :
    ∃ pt, (shouldDeferDeviceTemperature cfg env r v s).2 =
      { s with pendingTargets := pt } := by
  unfold shouldDeferDeviceTemperature
  rcases hp : s.pendingTargets r with _ | p
  · exact ⟨_, rfl⟩
  · rcases hl : s.lastTempCommand r with _ | lc <;> dsimp only <;> split_ifs <;>
      exact ⟨_, rfl⟩

lemma adoptDeviceTemp_modes (cfg : Config) (env : Env) (r : Role)
    (st : Option DeviceState) (s : Ctrl) :
    (adoptDeviceTemp cfg env r st s).hvacMode = s.hvacMode ∧
    (adoptDeviceTemp cfg env r st s).runningMode = s.runningMode ∧
    (adoptDeviceTemp cfg env r st s).lastActiveMode = s.lastActiveMode := by
  unfold adoptDeviceTemp
  rcases st with _ | d
  · exact ⟨rfl, rfl, rfl⟩
  · dsimp only
    split_ifs with hparse
    · rcases hdt : d.temperature with _ | t
      · exact ⟨rfl, rfl, rfl⟩
      · dsimp only [hdt]
        obtain ⟨pt, hpt⟩ := shouldDeferDeviceTemperature_shape cfg env r t s
        by_cases hdef : (shouldDeferDeviceTemperature cfg env r t s).1 = true
        · simp [hdef, hpt]
        · rcases r <;> simp [hdef, hpt] <;> split_ifs <;> simp
    · exact ⟨rfl, rfl, rfl⟩

lemma adoptAllowed_congr (cfg : Config) (env : Env) (initial : Bool) (s1 s : Ctrl)
    (h : s1.lastHvacCommand = s.lastHvacCommand) :
    adoptAllowed cfg env initial s1 = adoptAllowed cfg env initial s := by
  unfold adoptAllowed
  rw [h]

/-- C7: on startup or a device-change event while `hvacMode = OFF` with
adoption not suppressed, if both configured devices report active power
simultaneously, `_adopt_device_state` sets `hvacMode` to `lastActiveMode`
(COOL when `lastActiveMode` is neither HEAT nor COOL) and the running mode
to the matching value (HEATING for HEAT, COOLING for COOL). -/
theorem C7_dual_active_adoption (cfg : Config) (env : Env) (initial : Bool) (s : Ctrl)
    (hstd cstd : DeviceState)
    (hh : cfg.hasHeating = true) (hc : cfg.hasCooling = true)
    (hhe : env.heating = some hstd) (hhm : hstd.raw.parseMode = some HVACMode.heat)
    (hce : env.cooling = some cstd) (hcm : cstd.raw.parseMode = some HVACMode.cool)
    (hoff : s.hvacMode = .off)
    (hallow : adoptAllowed cfg env initial s = true) :
    (adoptDeviceState cfg env initial s).hvacMode =
      (if s.lastActiveMode = .heat ∨ s.lastActiveMode = .cool then s.lastActiveMode
       else HVACMode.cool) ∧
    (adoptDeviceState cfg env initial s).runningMode =
      (if (if s.lastActiveMode = .heat ∨ s.lastActiveMode = .cool then s.lastActiveMode
           else HVACMode.cool) = .heat then RunMode.heating else RunMode.cooling) := by
  obtain ⟨mn, mx, a, b, c, d, e, hshape⟩ := updateTemperatureLimits_shape s
  have hm1 : (updateTemperatureLimits s).hvacMode = HVACMode.off := by rw [hshape]; exact hoff
  have hl1 : (updateTemperatureLimits s).lastActiveMode = s.lastActiveMode := by rw [hshape]
  have ha1 : adoptAllowed cfg env initial (updateTemperatureLimits s) = true := by
    rw [adoptAllowed_congr cfg env initial _ s (by rw [hshape])]
    exact hallow
  have hblock :
      adoptModeBlock cfg env initial true true (updateTemperatureLimits s) =
        { updateTemperatureLimits s with
          hvacMode := if s.lastActiveMode = .heat ∨ s.lastActiveMode = .cool
            then s.lastActiveMode else HVACMode.cool,
          runningMode := if (if s.lastActiveMode = .heat ∨ s.lastActiveMode = .cool
              then s.lastActiveMode else HVACMode.cool) = .heat
            then RunMode.heating else RunMode.cooling,
          lastActiveMode := if s.lastActiveMode = .heat ∨ s.lastActiveMode = .cool
            then s.lastActiveMode else HVACMode.cool } := by
    unfold adoptModeBlock
    rw [if_pos hm1]
    simp [ha1, hl1]
  have hds : adoptDeviceState cfg env initial s =
      updateHvacAction cfg env (applyTargetLimits
        (adoptDeviceTemp cfg env .cooling (some cstd)
          (adoptDeviceTemp cfg env .heating (some hstd)
            (adoptModeBlock cfg env initial true true (updateTemperatureLimits s))))) := by
    have hd1 : decide ((((some hstd).bind fun a => a.raw.parseMode)) =
        some HVACMode.heat) = true :=
      decide_eq_true (by simpa using hhm)
    have hd2 : decide ((((some cstd).bind fun a => a.raw.parseMode)) =
        some HVACMode.cool) = true :=
      decide_eq_true (by simpa using hcm)
    unfold adoptDeviceState
    simp only [hh, hc, hhe, hce, if_true, hd1, hd2]
  rw [hds]
  obtain ⟨act, hact⟩ := updateHvacAction_shape cfg env (applyTargetLimits
    (adoptDeviceTemp cfg env .cooling (some cstd)
      (adoptDeviceTemp cfg env .heating (some hstd)
        (adoptModeBlock cfg env initial true true (updateTemperatureLimits s)))))
  rw [hact]
  have hc1 := adoptDeviceTemp_modes cfg env .heating (some hstd)
    (adoptModeBlock cfg env initial true true (updateTemperatureLimits s))
  have hc2 := adoptDeviceTemp_modes cfg env .cooling (some cstd)
    (adoptDeviceTemp cfg env .heating (some hstd)
      (adoptModeBlock cfg env initial true true (updateTemperatureLimits s)))
  constructor
  · show (applyTargetLimits _).hvacMode = _
    rw [applyTargetLimits_hvacMode, hc2.1, hc1.1, hblock]
  · show (applyTargetLimits _).runningMode = _
    rw [applyTargetLimits_runningMode, hc2.2.1, hc1.2.1, hblock]

/-- Witness for C7: both devices active with `lastActiveMode = HEAT` while
OFF adopts HEAT / HEATING. -/
theorem C7_dual_active_adoption_witness :
    (adoptDeviceState dualConfig
      { baseEnv with heating := some heatDeviceNoTemp,
                     cooling := some { heatDeviceNoTemp with raw := .ofMode .cool } }
      true baseCtrl).hvacMode = HVACMode.heat ∧
    (adoptDeviceState dualConfig
      { baseEnv with heating := some heatDeviceNoTemp,
                     cooling := some { heatDeviceNoTemp with raw := .ofMode .cool } }
      true baseCtrl).runningMode = RunMode.heating := by
  have h := C7_dual_active_adoption dualConfig
    { baseEnv with heating := some heatDeviceNoTemp,
                   cooling := some { heatDeviceNoTemp with raw := .ofMode .cool } }
    true baseCtrl heatDeviceNoTemp { heatDeviceNoTemp with raw := .ofMode .cool }
    rfl rfl rfl rfl rfl rfl rfl rfl
  rcases h with ⟨h1, h2⟩
  constructor
  · rw [h1]
    simp [baseCtrl]
  · rw [h2]
    simp [baseCtrl]

lemma coolingLeg_shape (cfg : Config) (env : Env) (ch : HVACMode) (ct : Option ℚ)
    (s : Ctrl) (log : List DevCmd) :
    ∃ pm ra lh pt dt lt tr, (coolingLeg cfg env ch ct s log).state =
      { s with pendingModes := pm, hvacRetryArmed := ra, lastHvacCommand := lh,
               pendingTargets := pt, deviceTemperatures := dt, lastTempCommand := lt,
               tempRetryArmed := tr } := by
  unfold coolingLeg
  dsimp only
  obtain ⟨pm, ra, lh, hh1⟩ := ensureHvacMode_shape cfg env .cooling ch s
  rcases ct with _ | t
  · dsimp only
    split_ifs <;>
      first
        | (rw [hh1]; exact ⟨_, _, _, _, _, _, _, rfl⟩)
        | exact ⟨_, _, _, _, _, _, _, rfl⟩
  · dsimp only
    obtain ⟨pt, dt, lt, tr, ht1⟩ := ensureTemperature_shape cfg env .cooling t
      (decide (ch ≠ HVACMode.off) && (ensureHvacMode cfg env .cooling ch s).ret)
      (ensureHvacMode cfg env .cooling ch s).state
    split_ifs <;>
      first
        | (rw [ht1, hh1]; exact ⟨_, _, _, _, _, _, _, rfl⟩)
        | (rw [hh1]; exact ⟨_, _, _, _, _, _, _, rfl⟩)
        | exact ⟨_, _, _, _, _, _, _, rfl⟩

lemma applyDeviceStates_shape (cfg : Config) (env : Env) (hh ch : HVACMode)
    (ht ct : Option ℚ) (s : Ctrl) :
    ∃ pm ra lh pt dt lt tr, (applyDeviceStates cfg env hh ch ht ct s).state =
      { s with pendingModes := pm, hvacRetryArmed := ra, lastHvacCommand := lh,
               pendingTargets := pt, deviceTemperatures := dt, lastTempCommand := lt,
               tempRetryArmed := tr } := by
  unfold applyDeviceStates
  dsimp only
  obtain ⟨pm, ra, lh, hh1⟩ := ensureHvacMode_shape cfg env .heating hh s
  rcases ht with _ | t
  · dsimp only
    split_ifs <;>
      first
        | (rw [hh1]; exact ⟨_, _, _, _, _, _, _, rfl⟩)
        | (obtain ⟨pm2, ra2, lh2, pt2, dt2, lt2, tr2, hc1⟩ := coolingLeg_shape cfg env ch ct
            (ensureHvacMode cfg env .heating hh s).state
            ((tryTurnOff env .heating).2 ++ (ensureHvacMode cfg env .heating hh s).log);
           rw [hc1, hh1]; exact ⟨_, _, _, _, _, _, _, rfl⟩)
        | (obtain ⟨pm2, ra2, lh2, pt2, dt2, lt2, tr2, hc1⟩ := coolingLeg_shape cfg env ch ct
            (ensureHvacMode cfg env .heating hh s).state
            ([] ++ (ensureHvacMode cfg env .heating hh s).log);
           rw [hc1, hh1]; exact ⟨_, _, _, _, _, _, _, rfl⟩)
        | (obtain ⟨pm3, ra3, lh3, pt3, dt3, lt3, tr3, hc2⟩ :=
            coolingLeg_shape cfg env ch ct s [];
           rw [hc2]; exact ⟨_, _, _, _, _, _, _, rfl⟩)
  · dsimp only
    obtain ⟨pt, dt, lt, tr, ht1⟩ := ensureTemperature_shape cfg env .heating t
      (decide (hh ≠ HVACMode.off) && (ensureHvacMode cfg env .heating hh s).ret)
      (ensureHvacMode cfg env .heating hh s).state
    split_ifs <;>
      first
        | (rw [ht1, hh1]; exact ⟨_, _, _, _, _, _, _, rfl⟩)
        | (rw [hh1]; exact ⟨_, _, _, _, _, _, _, rfl⟩)
        | (obtain ⟨pm2, ra2, lh2, pt2, dt2, lt2, tr2, hc1⟩ := coolingLeg_shape cfg env ch ct
            (ensureTemperature cfg env .heating t
              (decide (hh ≠ HVACMode.off) && (ensureHvacMode cfg env .heating hh s).ret)
              (ensureHvacMode cfg env .heating hh s).state).state
            ((tryTurnOff env .heating).2 ++ (ensureHvacMode cfg env .heating hh s).log ++
              (ensureTemperature cfg env .heating t
                (decide (hh ≠ HVACMode.off) && (ensureHvacMode cfg env .heating hh s).ret)
                (ensureHvacMode cfg env .heating hh s).state).log);
           rw [hc1, ht1, hh1]; exact ⟨_, _, _, _, _, _, _, rfl⟩)
        | (obtain ⟨pm2, ra2, lh2, pt2, dt2, lt2, tr2, hc1⟩ := coolingLeg_shape cfg env ch ct
            (ensureTemperature cfg env .heating t
              (decide (hh ≠ HVACMode.off) && (ensureHvacMode cfg env .heating hh s).ret)
              (ensureHvacMode cfg env .heating hh s).state).state
            ([] ++ (ensureHvacMode cfg env .heating hh s).log ++
              (ensureTemperature cfg env .heating t
                (decide (hh ≠ HVACMode.off) && (ensureHvacMode cfg env .heating hh s).ret)
                (ensureHvacMode cfg env .heating hh s).state).log);
           rw [hc1, ht1, hh1]; exact ⟨_, _, _, _, _, _, _, rfl⟩)
        | (obtain ⟨pm3, ra3, lh3, pt3, dt3, lt3, tr3, hc2⟩ :=
            coolingLeg_shape cfg env ch ct s [];
           rw [hc2]; exact ⟨_, _, _, _, _, _, _, rfl⟩)

lemma ensureConsistency_targets_off (cfg : Config) (env : Env) (f : Bool) (s : Ctrl)
    (hoff : s.hvacMode = .off)
    (hhc : s.heatTarget ≤ s.coolTarget)
    (hclh : clampTemperature s s.heatTarget = s.heatTarget)
    (hclc : clampTemperature s s.coolTarget = s.coolTarget) :
    (ensureConsistency cfg env f s).state.heatTarget = s.heatTarget ∧
    (ensureConsistency cfg env f s).state.coolTarget = s.coolTarget := by
  have hdes : decideRunningMode s = .idle := by simp [decideRunningMode, hoff]
  unfold ensureConsistency turnOffAll
  simp only [hdes, if_pos]
  obtain ⟨pm, ra, lh, pt, dt, lt, tr, hr⟩ := applyDeviceStates_shape cfg env .off .off
    none none { s with runningMode := RunMode.idle }
  have hpair : clampedPair (applyDeviceStates cfg env .off .off none none
      { s with runningMode := RunMode.idle }).state = (s.heatTarget, s.coolTarget) := by
    unfold clampedPair
    rw [hr]
    show (if clampTemperature s s.heatTarget > clampTemperature s s.coolTarget then _
      else (clampTemperature s s.heatTarget, clampTemperature s s.coolTarget)) = _
    rw [hclh, hclc, if_neg (not_lt.mpr hhc)]
  split_ifs with h1
  · rw [hr]
    exact ⟨rfl, rfl⟩
  · obtain ⟨act, ha⟩ := updateHvacAction_shape cfg env (applyTargetLimits
      (applyDeviceStates cfg env .off .off none none
        { s with runningMode := RunMode.idle }).state)
    dsimp only
    rw [ha]
    constructor
    · show (applyTargetLimits _).heatTarget = _
      rw [applyTargetLimits_heatTarget, hpair]
    · show (applyTargetLimits _).coolTarget = _
      rw [applyTargetLimits_coolTarget, hpair]

lemma clamp_congr (a b : Ctrl) (v : ℚ) (h1 : a.minTemp = b.minTemp)
    (h2 : a.maxTemp = b.maxTemp) :
    clampTemperature a v = clampTemperature b v := by
  unfold clampTemperature
  rw [h1, h2]

lemma applyTargetLimits_minTemp (s : Ctrl) : (applyTargetLimits s).minTemp = s.minTemp := by
  obtain ⟨a, b, c, d, e, h⟩ := applyTargetLimits_shape s
  rw [h]

lemma applyTargetLimits_maxTemp (s : Ctrl) : (applyTargetLimits s).maxTemp = s.maxTemp := by
  obtain ⟨a, b, c, d, e, h⟩ := applyTargetLimits_shape s
  rw [h]

lemma applyTargetLimits_fixed (s : Ctrl)
    (h1 : clampTemperature s s.heatTarget = s.heatTarget)
    (h2 : clampTemperature s s.coolTarget = s.coolTarget)
    (h3 : s.heatTarget ≤ s.coolTarget) :
    (applyTargetLimits s).heatTarget = s.heatTarget ∧
    (applyTargetLimits s).coolTarget = s.coolTarget := by
  rw [applyTargetLimits_heatTarget, applyTargetLimits_coolTarget]
  unfold clampedPair
  rw [h1, h2, if_neg (not_lt.mpr h3)]
  exact ⟨rfl, rfl⟩

/-- C10: with `hvacMode = OFF`, a set-temperature call carrying only a single
temperature value sets both `heatTarget` and `coolTarget` to that value
clamped to the bounds; and when explicit low and high values are supplied
with low > high, the two clamped values are swapped — the supplied high
becomes `heatTarget` and the supplied low becomes `coolTarget` — rather than
repaired toward the active mode. -/
theorem C10_set_temperature_while_off (cfg : Config) (env : Env) (s : Ctrl)
    (hoff : s.hvacMode = .off) :
    (∀ v : ℚ,
      (asyncSetTemperature cfg env (some v) none none s).state.heatTarget =
        clampTemperature s v ∧
      (asyncSetTemperature cfg env (some v) none none s).state.coolTarget =
        clampTemperature s v) ∧
    (∀ (t : Option ℚ) (l h : ℚ), h < l →
      (asyncSetTemperature cfg env t (some l) (some h) s).state.heatTarget =
        clampTemperature s h ∧
      (asyncSetTemperature cfg env t (some l) (some h) s).state.coolTarget =
        clampTemperature s l) := by
  have hne1 : ¬ s.hvacMode = HVACMode.heat := by rw [hoff]; decide
  have hne2 : ¬ s.hvacMode = HVACMode.cool := by rw [hoff]; decide
  have main : ∀ (t lowA highA : Option ℚ) (ch cc : ℚ),
      (setTemperaturePre t lowA highA s).heatTarget = ch →
      (setTemperaturePre t lowA highA s).coolTarget = cc →
      clampTemperature s ch = ch → clampTemperature s cc = cc → ch ≤ cc →
      (asyncSetTemperature cfg env t lowA highA s).state.heatTarget = ch ∧
      (asyncSetTemperature cfg env t lowA highA s).state.coolTarget = cc := by
    intro t lowA highA ch cc hh1 hc1 hchf hccf hle
    have hPmin : (setTemperaturePre t lowA highA s).minTemp = s.minTemp := by
      unfold setTemperaturePre
      rw [if_neg hne1, if_neg hne2]
    have hPmax : (setTemperaturePre t lowA highA s).maxTemp = s.maxTemp := by
      unfold setTemperaturePre
      rw [if_neg hne1, if_neg hne2]
    have hPhvac : (setTemperaturePre t lowA highA s).hvacMode = HVACMode.off := by
      unfold setTemperaturePre
      rw [if_neg hne1, if_neg hne2]
      rcases t with _ | tv <;> rcases lowA with _ | lv <;> rcases highA with _ | hv <;>
        exact hoff
    have hclP : ∀ v : ℚ, clampTemperature (setTemperaturePre t lowA highA s) v =
        clampTemperature s v := fun v => clamp_congr _ _ v hPmin hPmax
    have hfix := applyTargetLimits_fixed (setTemperaturePre t lowA highA s)
      (by rw [hclP, hh1, hchf]) (by rw [hclP, hc1, hccf])
      (by rw [hh1, hc1]; exact hle)
    have hXheat : (applyTargetLimits (setTemperaturePre t lowA highA s)).heatTarget = ch := by
      rw [hfix.1, hh1]
    have hXcool : (applyTargetLimits (setTemperaturePre t lowA highA s)).coolTarget = cc := by
      rw [hfix.2, hc1]
    have hXmin := applyTargetLimits_minTemp (setTemperaturePre t lowA highA s)
    have hXmax := applyTargetLimits_maxTemp (setTemperaturePre t lowA highA s)
    have hXhvac : (applyTargetLimits (setTemperaturePre t lowA highA s)).hvacMode =
        HVACMode.off := by
      rw [applyTargetLimits_hvacMode, hPhvac]
    have hclX : ∀ v : ℚ,
        clampTemperature (applyTargetLimits (setTemperaturePre t lowA highA s)) v =
          clampTemperature s v := fun v => by
      rw [clamp_congr _ s v (by rw [hXmin, hPmin]) (by rw [hXmax, hPmax])]
    have hfin := ensureConsistency_targets_off cfg env true
      (applyTargetLimits (setTemperaturePre t lowA highA s)) hXhvac
      (by rw [hXheat, hXcool]; exact hle)
      (by rw [hclX, hXheat, hchf]) (by rw [hclX, hXcool, hccf])
    unfold asyncSetTemperature
    rw [hfin.1, hfin.2, hXheat, hXcool]
    exact ⟨rfl, rfl⟩
  constructor
  · intro v
    have hpre : setTemperaturePre (some v) none none s =
        { s with heatTarget := clampTemperature s v, coolTarget := clampTemperature s v,
                 targetLow := clampTemperature s v, targetHigh := clampTemperature s v,
                 targetTemperature := clampTemperature s v } := by
      unfold setTemperaturePre
      rw [if_neg hne1, if_neg hne2]
      dsimp only
      rw [if_neg (lt_irrefl (clampTemperature s v)), ite_self]
    exact main (some v) none none (clampTemperature s v) (clampTemperature s v)
      (by rw [hpre]) (by rw [hpre]) (clamp_idem s v) (clamp_idem s v) le_rfl
  · intro t l h hlh
    have hmono : clampTemperature s h ≤ clampTemperature s l :=
      clamp_mono s (le_of_lt hlh)
    have hpre : (setTemperaturePre t (some l) (some h) s).heatTarget =
        clampTemperature s h ∧
        (setTemperaturePre t (some l) (some h) s).coolTarget = clampTemperature s l := by
      unfold setTemperaturePre
      rw [if_neg hne1, if_neg hne2]
      rcases t with _ | tv <;> dsimp only <;>
        (by_cases hsw : clampTemperature s h < clampTemperature s l
         · rw [if_pos hsw]
           exact ⟨rfl, rfl⟩
         · rw [if_neg hsw]
           have heq : clampTemperature s l = clampTemperature s h :=
             le_antisymm (not_lt.mp hsw) hmono
           exact ⟨heq, heq.symm ▸ rfl⟩)
    exact main t (some l) (some h) (clampTemperature s h) (clampTemperature s l)
      hpre.1 hpre.2 (clamp_idem s h) (clamp_idem s l) hmono

/-- Witness for C10 at a concrete OFF state: a single value 23 sets both
targets to clamp(23); low 28 with high 21 yields heatTarget = clamp(21) and
coolTarget = clamp(28). -/
theorem C10_set_temperature_while_off_witness :
    ((asyncSetTemperature heatOnlyConfig baseEnv (some 23) none none
        baseCtrl).state.heatTarget = clampTemperature baseCtrl 23 ∧
      (asyncSetTemperature heatOnlyConfig baseEnv (some 23) none none
        baseCtrl).state.coolTarget = clampTemperature baseCtrl 23) ∧
    ((asyncSetTemperature heatOnlyConfig baseEnv none (some 28) (some 21)
        baseCtrl).state.heatTarget = clampTemperature baseCtrl 21 ∧
      (asyncSetTemperature heatOnlyConfig baseEnv none (some 28) (some 21)
        baseCtrl).state.coolTarget = clampTemperature baseCtrl 28) := by
  constructor
  · exact (C10_set_temperature_while_off heatOnlyConfig baseEnv baseCtrl rfl).1 23
  · exact (C10_set_temperature_while_off heatOnlyConfig baseEnv baseCtrl rfl).2
      none 28 21 (by norm_num)

lemma applyDeviceStates_modes (cfg : Config) (env : Env) (hh ch : HVACMode)
    (ht ct : Option ℚ) (s : Ctrl) :
    (applyDeviceStates cfg env hh ch ht ct s).state.hvacMode = s.hvacMode ∧
    (applyDeviceStates cfg env hh ch ht ct s).state.runningMode = s.runningMode := by
  obtain ⟨pm, ra, lh, pt, dt, lt, tr, h⟩ := applyDeviceStates_shape cfg env hh ch ht ct s
  rw [h]
  exact ⟨rfl, rfl⟩

lemma activateHeating_modes (cfg : Config) (env : Env) (s : Ctrl) :
    (activateHeating cfg env s).state.hvacMode = s.hvacMode ∧
    (activateHeating cfg env s).state.runningMode = s.runningMode := by
  unfold activateHeating
  split_ifs with h1
  · dsimp only
    exact applyDeviceStates_modes cfg env .heat .off
      (some (clampTemperature s s.heatTarget)) none _
  · exact ⟨rfl, rfl⟩

lemma activateCooling_modes (cfg : Config) (env : Env) (s : Ctrl) :
    (activateCooling cfg env s).state.hvacMode = s.hvacMode ∧
    (activateCooling cfg env s).state.runningMode = s.runningMode := by
  unfold activateCooling
  split_ifs with h1
  · dsimp only
    exact applyDeviceStates_modes cfg env .off .cool none
      (some (clampTemperature s s.coolTarget)) _
  · exact ⟨rfl, rfl⟩

lemma syncActiveDeviceTemperature_modes (cfg : Config) (env : Env) (s : Ctrl) :
    (syncActiveDeviceTemperature cfg env s).state.hvacMode = s.hvacMode ∧
    (syncActiveDeviceTemperature cfg env s).state.runningMode = s.runningMode := by
  unfold syncActiveDeviceTemperature
  split_ifs with h1 h2
  · dsimp only
    obtain ⟨pt, dt, lt, tr, h⟩ := ensureTemperature_shape cfg env .heating
      (clampTemperature s s.heatTarget) true
      { s with targetLow := clampTemperature s s.heatTarget,
               heatTarget := clampTemperature s s.heatTarget,
               targetTemperature := clampTemperature s s.heatTarget }
    rw [h]
    exact ⟨rfl, rfl⟩
  · dsimp only
    obtain ⟨pt, dt, lt, tr, h⟩ := ensureTemperature_shape cfg env .cooling
      (clampTemperature s s.coolTarget) true
      { s with targetHigh := clampTemperature s s.coolTarget,
               coolTarget := clampTemperature s s.coolTarget,
               targetTemperature := clampTemperature s s.coolTarget }
    rw [h]
    exact ⟨rfl, rfl⟩
  · exact ⟨rfl, rfl⟩

lemma ModeInv_congr (s t : Ctrl) (h1 : t.hvacMode = s.hvacMode)
    (h2 : t.runningMode = s.runningMode) (h : ModeInv s) : ModeInv t := by
  unfold ModeInv at h ⊢
  rw [h1, h2]
  exact h

lemma ensureConsistency_ModeInv (cfg : Config) (env : Env) (f : Bool) (s : Ctrl)
    (h3 : s.hvacMode = .off ∨ s.hvacMode = .heat ∨ s.hvacMode = .cool)
    (hnr : (ensureConsistency cfg env f s).raised = false) :
    ModeInv (ensureConsistency cfg env f s).state := by
  rcases h3 with hm | hm | hm
  · have hdes : decideRunningMode s = .idle := by simp [decideRunningMode, hm]
    unfold ensureConsistency at hnr ⊢
    simp only [hdes, reduceIte] at hnr ⊢
    by_cases hra : (turnOffAll cfg env { s with runningMode := RunMode.idle }).raised = true
    · rw [if_pos hra] at hnr
      exact absurd hnr (by rw [hra]; decide)
    · rw [if_neg hra] at hnr ⊢
      obtain ⟨act, ha⟩ := updateHvacAction_shape cfg env (applyTargetLimits
        (turnOffAll cfg env { s with runningMode := RunMode.idle }).state)
      dsimp only
      rw [ha]
      have hmods := applyDeviceStates_modes cfg env .off .off none none
        { s with runningMode := RunMode.idle }
      refine ModeInv_congr { s with runningMode := RunMode.idle } _ ?_ ?_ ?_
      · rw [applyTargetLimits_hvacMode]
        exact hmods.1
      · rw [applyTargetLimits_runningMode]
        exact hmods.2
      · exact ⟨Or.inl hm, by simp [hm]⟩
  · have hdes : decideRunningMode s = .heating := by simp [decideRunningMode, hm]
    unfold ensureConsistency at hnr ⊢
    simp only [hdes, reduceCtorEq, if_false, reduceIte] at hnr ⊢
    split_ifs at hnr ⊢ with h1 h2 h3
    · exact absurd (h2.symm.trans hnr) (by decide)
    · obtain ⟨act, ha⟩ := updateHvacAction_shape cfg env (applyTargetLimits
        { (activateHeating cfg env s).state with runningMode := RunMode.heating })
      dsimp only
      rw [ha]
      have hmods := activateHeating_modes cfg env s
      refine ModeInv_congr
        { (activateHeating cfg env s).state with runningMode := RunMode.heating } _
        (by rw [applyTargetLimits_hvacMode]) (by rw [applyTargetLimits_runningMode]) ?_
      refine ⟨?_, ?_⟩
      · show (activateHeating cfg env s).state.hvacMode = _ ∨ _
        rw [hmods.1, hm]
        exact Or.inr (Or.inl rfl)
      · show RunMode.heating = RunMode.idle ↔ (activateHeating cfg env s).state.hvacMode = _
        rw [hmods.1, hm]
        simp
    · exact absurd (h3.symm.trans hnr) (by decide)
    · have hrun : s.runningMode = RunMode.heating := by
        push_neg at h1
        exact h1.2.1.symm
      obtain ⟨act, ha⟩ := updateHvacAction_shape cfg env (applyTargetLimits
        (syncActiveDeviceTemperature cfg env s).state)
      dsimp only
      rw [ha]
      have hmods := syncActiveDeviceTemperature_modes cfg env s
      refine ModeInv_congr s _
        (by rw [applyTargetLimits_hvacMode]; exact hmods.1)
        (by rw [applyTargetLimits_runningMode]; exact hmods.2) ?_
      exact ⟨Or.inr (Or.inl hm), by rw [hrun, hm]; simp⟩
  · have hdes : decideRunningMode s = .cooling := by simp [decideRunningMode, hm]
    unfold ensureConsistency at hnr ⊢
    simp only [hdes, reduceCtorEq, if_false, reduceIte] at hnr ⊢
    split_ifs at hnr ⊢ with h1 h2 h3
    · exact absurd (h2.symm.trans hnr) (by decide)
    · obtain ⟨act, ha⟩ := updateHvacAction_shape cfg env (applyTargetLimits
        { (activateCooling cfg env s).state with runningMode := RunMode.cooling })
      dsimp only
      rw [ha]
      have hmods := activateCooling_modes cfg env s
      refine ModeInv_congr
        { (activateCooling cfg env s).state with runningMode := RunMode.cooling } _
        (by rw [applyTargetLimits_hvacMode]) (by rw [applyTargetLimits_runningMode]) ?_
      refine ⟨?_, ?_⟩
      · show (activateCooling cfg env s).state.hvacMode = _ ∨ _
        rw [hmods.1, hm]
        exact Or.inr (Or.inr rfl)
      · show RunMode.cooling = RunMode.idle ↔ (activateCooling cfg env s).state.hvacMode = _
        rw [hmods.1, hm]
        simp
    · exact absurd (h3.symm.trans hnr) (by decide)
    · have hrun : s.runningMode = RunMode.cooling := by
        push_neg at h1
        exact h1.2.1.symm
      obtain ⟨act, ha⟩ := updateHvacAction_shape cfg env (applyTargetLimits
        (syncActiveDeviceTemperature cfg env s).state)
      dsimp only
      rw [ha]
      have hmods := syncActiveDeviceTemperature_modes cfg env s
      refine ModeInv_congr s _
        (by rw [applyTargetLimits_hvacMode]; exact hmods.1)
        (by rw [applyTargetLimits_runningMode]; exact hmods.2) ?_
      exact ⟨Or.inr (Or.inr hm), by rw [hrun, hm]; simp⟩

lemma ensureConsistency_hvac_off (cfg : Config) (env : Env) (f : Bool) (s : Ctrl)
    (hoff : s.hvacMode = .off) :
    (ensureConsistency cfg env f s).state.hvacMode = HVACMode.off := by
  have hdes : decideRunningMode s = .idle := by simp [decideRunningMode, hoff]
  unfold ensureConsistency turnOffAll
  simp only [hdes, reduceIte]
  split_ifs with h1
  · exact ((applyDeviceStates_modes cfg env .off .off none none
      { s with runningMode := RunMode.idle }).1).trans hoff
  · obtain ⟨act, ha⟩ := updateHvacAction_shape cfg env (applyTargetLimits
      (applyDeviceStates cfg env .off .off none none
        { s with runningMode := RunMode.idle }).state)
    dsimp only
    rw [ha, applyTargetLimits_hvacMode]
    exact ((applyDeviceStates_modes cfg env .off .off none none
      { s with runningMode := RunMode.idle }).1).trans hoff

lemma setTemperaturePre_hvacMode (t l h : Option ℚ) (s : Ctrl) :
    (setTemperaturePre t l h s).hvacMode = s.hvacMode := by
  rcases t with _ | tv <;> rcases l with _ | lv <;> rcases h with _ | hv <;>
    (unfold setTemperaturePre; dsimp only; split_ifs <;> rfl)

lemma setHvacModePre_fields (m : HVACMode) (s : Ctrl) :
    (setHvacModePre m s).hvacMode = m ∧
    (setHvacModePre m s).runningMode =
      (if m = .off then RunMode.idle
       else if m = .heat then RunMode.heating else RunMode.cooling) := by
  unfold setHvacModePre
  dsimp only
  split_ifs <;> exact ⟨rfl, rfl⟩

lemma supportedOrOff_mem (m : HVACMode) :
    supportedOrOff m = .off ∨ supportedOrOff m = .heat ∨ supportedOrOff m = .cool := by
  unfold supportedOrOff
  split_ifs with h
  · exact h
  · exact Or.inl rfl

lemma supportedOrOff_unsupported (m : HVACMode)
    (h : ¬(m = .off ∨ m = .heat ∨ m = .cool)) : supportedOrOff m = HVACMode.off := by
  unfold supportedOrOff
  rw [if_neg h]

lemma adoptModeBlock_ModeInv (cfg : Config) (env : Env) (i hOn cOn : Bool) (s1 : Ctrl) :
    ModeInv (adoptModeBlock cfg env i hOn cOn s1) := by
  unfold adoptModeBlock ModeInv
  split_ifs <;> rcases hLA : s1.lastActiveMode <;> simp_all

lemma restoreActionState_shape (snap : Snapshot) (s : Ctrl) :
    ∃ a, restoreActionState snap s = { s with hvacAction := a } := by
  unfold restoreActionState
  rcases snap.action with _ | a <;> exact ⟨_, rfl⟩

lemma restoreTargetsHeat_shape (snap : Snapshot) (s : Ctrl) :
    ∃ a b, restoreTargetsHeat snap s = { s with heatTarget := a, coolTarget := b } := by
  unfold restoreTargetsHeat
  rcases ht : snap.temp with _ | tv <;> rcases hl : snap.low with _ | lv <;>
    rcases hh : snap.high with _ | hv <;> dsimp only <;> exact ⟨_, _, rfl⟩

lemma restoreTargetsCool_shape (snap : Snapshot) (s : Ctrl) :
    ∃ a b, restoreTargetsCool snap s = { s with heatTarget := a, coolTarget := b } := by
  unfold restoreTargetsCool
  rcases ht : snap.temp with _ | tv <;> rcases hl : snap.low with _ | lv <;>
    rcases hh : snap.high with _ | hv <;> dsimp only <;> exact ⟨_, _, rfl⟩

lemma restoreTargetsOff_shape (snap : Snapshot) (s : Ctrl) :
    ∃ a b c, restoreTargetsOff snap s =
      { s with heatTarget := a, coolTarget := b, targetTemperature := c } := by
  unfold restoreTargetsOff
  rcases ht : snap.temp with _ | tv <;> rcases hl : snap.low with _ | lv <;>
    rcases hh : snap.high with _ | hv <;> dsimp only <;>
    first
      | (split_ifs <;> exact ⟨_, _, _, rfl⟩)
      | exact ⟨_, _, _, rfl⟩

lemma restoreFinal_ModeInv (snap : Snapshot) (M : HVACMode) (s1 : Ctrl)
    (hM : s1.hvacMode = M)
    (h3M : M = .off ∨ M = .heat ∨ M = .cool) :
    ModeInv (restoreFinal snap M s1) := by
  unfold restoreFinal
  rcases h3M with h | h | h <;> subst h
  · rw [if_neg (by decide), if_neg (by decide)]
    obtain ⟨a, b, c, hO⟩ := restoreTargetsOff_shape snap s1
    refine ⟨Or.inl ?_, ?_⟩ <;> simp [hO, hM]
  · rw [if_pos rfl]
    obtain ⟨a, b, hH⟩ := restoreTargetsHeat_shape snap s1
    refine ⟨Or.inr (Or.inl ?_), ?_⟩ <;> simp [hH, hM]
  · rw [if_neg (by decide), if_pos rfl]
    obtain ⟨a, b, hC⟩ := restoreTargetsCool_shape snap s1
    refine ⟨Or.inr (Or.inr ?_), ?_⟩ <;> simp [hC, hM]

lemma restoreFromLastState_ModeInv (snap : Snapshot) (s : Ctrl)
    (h3 : s.hvacMode = .off ∨ s.hvacMode = .heat ∨ s.hvacMode = .cool) :
    ModeInv (restoreFromLastState snap s) := by
  unfold restoreFromLastState
  dsimp only
  refine ModeInv_congr _ _ (applyTargetLimits_hvacMode _)
    (applyTargetLimits_runningMode _) ?_
  obtain ⟨aAct, hA⟩ := restoreActionState_shape snap s
  have hA3 : (restoreActionState snap s).hvacMode = s.hvacMode := by rw [hA]
  rcases hrm : restoreResolvedMode snap (restoreActionState snap s) with _ | m
  · exact restoreFinal_ModeInv snap _ _ rfl (by rw [hA3]; exact h3)
  · dsimp only
    by_cases hm3 : m = HVACMode.heat ∨ m = HVACMode.cool ∨ m = HVACMode.off
    · rw [if_pos hm3]
      refine restoreFinal_ModeInv snap m _ rfl ?_
      rcases hm3 with h | h | h
      · exact Or.inr (Or.inl h)
      · exact Or.inr (Or.inr h)
      · exact Or.inl h
    · rw [if_neg hm3]
      exact restoreFinal_ModeInv snap _ _ rfl (by rw [hA3]; exact h3)

lemma adoptTail_modes (cfg : Config) (env : Env) (CS HS : Option DeviceState)
    (X : Ctrl) :
    (updateHvacAction cfg env (applyTargetLimits
      (adoptDeviceTemp cfg env .cooling CS
        (adoptDeviceTemp cfg env .heating HS X)))).hvacMode = X.hvacMode ∧
    (updateHvacAction cfg env (applyTargetLimits
      (adoptDeviceTemp cfg env .cooling CS
        (adoptDeviceTemp cfg env .heating HS X)))).runningMode = X.runningMode := by
  obtain ⟨act, ha⟩ := updateHvacAction_shape cfg env (applyTargetLimits
    (adoptDeviceTemp cfg env .cooling CS (adoptDeviceTemp cfg env .heating HS X)))
  rw [ha]
  constructor
  · show (applyTargetLimits _).hvacMode = _
    rw [applyTargetLimits_hvacMode,
      (adoptDeviceTemp_modes cfg env .cooling CS _).1,
      (adoptDeviceTemp_modes cfg env .heating HS X).1]
  · show (applyTargetLimits _).runningMode = _
    rw [applyTargetLimits_runningMode,
      (adoptDeviceTemp_modes cfg env .cooling CS _).2.1,
      (adoptDeviceTemp_modes cfg env .heating HS X).2.1]

/-- C2: after every public operation completes without an uncaught error —
set hvac mode, set temperature, restore from snapshot, adopt device state,
ensure consistency — the HVAC mode is one of OFF / HEAT / COOL (with an
unsupported externally supplied mode collapsed to OFF) and the running mode
is IDLE exactly when the HVAC mode is OFF.  The operations that rely on the
invariant already holding take it as a hypothesis on the input state;
`async_set_hvac_mode` and `_adopt_device_state` (re)establish it
unconditionally. -/
theorem C2_mode_running_invariant :
    (∀ (cfg : Config) (env : Env) (m : HVACMode) (s : Ctrl),
      (asyncSetHvacMode cfg env m s).raised = false →
      ModeInv (asyncSetHvacMode cfg env m s).state ∧
      (¬(m = .off ∨ m = .heat ∨ m = .cool) →
        (asyncSetHvacMode cfg env m s).state.hvacMode = HVACMode.off)) ∧
    (∀ (cfg : Config) (env : Env) (t l h : Option ℚ) (s : Ctrl),
      s.hvacMode = .off ∨ s.hvacMode = .heat ∨ s.hvacMode = .cool →
      (asyncSetTemperature cfg env t l h s).raised = false →
      ModeInv (asyncSetTemperature cfg env t l h s).state) ∧
    (∀ (snap : Snapshot) (s : Ctrl),
      s.hvacMode = .off ∨ s.hvacMode = .heat ∨ s.hvacMode = .cool →
      ModeInv (restoreFromLastState snap s)) ∧
    (∀ (cfg : Config) (env : Env) (initial : Bool) (s : Ctrl),
      ModeInv (adoptDeviceState cfg env initial s)) ∧
    (∀ (cfg : Config) (env : Env) (f : Bool) (s : Ctrl),
      s.hvacMode = .off ∨ s.hvacMode = .heat ∨ s.hvacMode = .cool →
      (ensureConsistency cfg env f s).raised = false →
      ModeInv (ensureConsistency cfg env f s).state) := by
  refine ⟨?_, ?_, ?_, ?_, ?_⟩
  · intro cfg env m s hnr
    unfold asyncSetHvacMode at hnr ⊢
    dsimp only at hnr ⊢
    split_ifs at hnr ⊢ with heq
    · have h3 : s.hvacMode = .off ∨ s.hvacMode = .heat ∨ s.hvacMode = .cool := by
        rw [← heq]
        exact supportedOrOff_mem m
      refine ⟨ensureConsistency_ModeInv cfg env true s h3 hnr, ?_⟩
      intro hun
      have hsm : s.hvacMode = HVACMode.off := by
        rw [← heq, supportedOrOff_unsupported m hun]
      exact ensureConsistency_hvac_off cfg env true s hsm
    · have hXm : (applyTargetLimits (setHvacModePre (supportedOrOff m) s)).hvacMode =
          supportedOrOff m := by
        rw [applyTargetLimits_hvacMode]
        exact (setHvacModePre_fields _ s).1
      refine ⟨ensureConsistency_ModeInv cfg env true _
        (by rw [hXm]; exact supportedOrOff_mem m) hnr, ?_⟩
      intro hun
      exact ensureConsistency_hvac_off cfg env true _
        (by rw [hXm, supportedOrOff_unsupported m hun])
  · intro cfg env t l h s h3 hnr
    unfold asyncSetTemperature at hnr ⊢
    have hXm : (applyTargetLimits (setTemperaturePre t l h s)).hvacMode = s.hvacMode := by
      rw [applyTargetLimits_hvacMode, setTemperaturePre_hvacMode]
    exact ensureConsistency_ModeInv cfg env true _ (by rw [hXm]; exact h3) hnr
  · intro snap s h3
    exact restoreFromLastState_ModeInv snap s h3
  · intro cfg env i s
    unfold adoptDeviceState
    dsimp only
    exact ModeInv_congr _ _ (adoptTail_modes cfg env _ _ _).1
      (adoptTail_modes cfg env _ _ _).2
      (adoptModeBlock_ModeInv cfg env i _ _ (updateTemperatureLimits s))
  · intro cfg env f s h3 hnr
    exact ensureConsistency_ModeInv cfg env f s h3 hnr

/-- Witness for C2: the invariant holds after each operation at a concrete
input (heating-only config, no device states, OFF initial state). -/
theorem C2_mode_running_invariant_witness :
    ModeInv (asyncSetHvacMode heatOnlyConfig baseEnv HVACMode.heat baseCtrl).state ∧
    ModeInv (asyncSetTemperature heatOnlyConfig baseEnv (some 23) none none baseCtrl).state ∧
    ModeInv (restoreFromLastState
      { stateRaw := .ofMode .heat, action := none, temp := none, low := none, high := none }
      baseCtrl) ∧
    ModeInv (adoptDeviceState heatOnlyConfig baseEnv true baseCtrl) ∧
    ModeInv (ensureConsistency heatOnlyConfig baseEnv false baseCtrl).state := by
  refine ⟨(C2_mode_running_invariant.1 heatOnlyConfig baseEnv .heat baseCtrl rfl).1,
    C2_mode_running_invariant.2.1 heatOnlyConfig baseEnv (some 23) none none baseCtrl
      (Or.inl rfl) rfl,
    C2_mode_running_invariant.2.2.1 _ baseCtrl (Or.inl rfl),
    C2_mode_running_invariant.2.2.2.1 heatOnlyConfig baseEnv true baseCtrl,
    C2_mode_running_invariant.2.2.2.2 heatOnlyConfig baseEnv false baseCtrl
      (Or.inl rfl) rfl⟩

end ClimateWrapper
